import Mathlib

/-
Verification of the recommendations/analytics engine of the wellness
tracker (src/recommendations.py, class SmartRecommendationsEngine and the
module-level get_recommendation_summary).  Modelling conventions:

* Python dicts keyed by strings/ints are insertion-ordered association
  lists (Python 3.7+ dicts preserve insertion order).
* Python floats are rationals; the two standard deviations surfaced by
  the engine (energy stability, consistency variation) are kept as their
  squares (rational variances) together with `Real.sqrt` wrappers.
* A raised exception propagating out of a function is `Except.error ()`.
* The module defines several methods twice with identical bodies (the
  second definition shadows the first inside the class body); the
  definitions below follow the second, effective copies.
-/

/-! ### Character/string helpers: Python `str.lower`, `in`, `split`, `int` -/

def lowerChars (l : List Char) : List Char := l.map Char.toLower

/-- `leadsWith needle hay`: `needle` is an initial segment of `hay`. -/
def leadsWith : List Char → List Char → Bool
  | [], _ => true
  | _ :: _, [] => false
  | a :: as, b :: bs => a == b && leadsWith as bs

/-- Python `needle in hay` on character lists (contiguous substring). -/
def charsContain (needle : List Char) : List Char → Bool
  | [] => needle.isEmpty
  | c :: rest => leadsWith needle (c :: rest) || charsContain needle rest

/-- Python `needle in hay.lower()` (the keyword tests of the engine; all
keyword constants in the source are already lowercase). -/
def containsLower (hay needle : String) : Bool :=
  charsContain needle.toList (lowerChars hay.toList)

/-- Python `any(word in hay.lower() for word in words)`. -/
def anyWordIn (hay : String) (words : List String) : Bool :=
  words.any (fun w => containsLower hay w)

def splitOnCharGo (sep : Char) (cur : List Char) : List Char → List (List Char)
  | [] => [cur.reverse]
  | c :: rest =>
    if c == sep then cur.reverse :: splitOnCharGo sep [] rest
    else splitOnCharGo sep (c :: cur) rest

/-- Python `s.split(sep)` for a one-character separator (never empty). -/
def splitOnChar (sep : Char) (l : List Char) : List (List Char) :=
  splitOnCharGo sep [] l

def digitsToNat (acc : Nat) : List Char → Option Nat
  | [] => some acc
  | c :: rest =>
    if c.isDigit then digitsToNat (acc * 10 + (c.toNat - 48)) rest else none

def parseNatDigits (l : List Char) : Option Nat :=
  if l.isEmpty then none else digitsToNat 0 l

/-- Python `int(s)` restricted to an optional sign followed by decimal
digits (the whitespace/underscore tolerance of `int` is not modelled; the
engine's time fields are plain `HH:MM` strings or garbage). -/
def parseIntChars : List Char → Option Int
  | '-' :: rest => (parseNatDigits rest).map (fun n => -(n : Int))
  | '+' :: rest => (parseNatDigits rest).map (fun n => (n : Int))
  | l => (parseNatDigits l).map (fun n => (n : Int))

/-- `int(task['time'].split(':')[0])` (recommendations.py). -/
def parseHour (time : String) : Option Int :=
  parseIntChars ((splitOnChar ':' time.toList).headD [])

/-! ### Calendar dates: `datetime.strptime(s, '%Y-%m-%d')`, weekdays -/

def isLeapYear (y : Nat) : Bool :=
  (y % 4 == 0 && y % 100 != 0) || y % 400 == 0

def daysInMonth (y m : Nat) : Nat :=
  if m == 2 then (if isLeapYear y then 29 else 28)
  else if m == 4 || m == 6 || m == 9 || m == 11 then 30
  else 31

structure CalDate where
  year : Nat
  month : Nat
  day : Nat
deriving DecidableEq

/-- `datetime.strptime(s, '%Y-%m-%d')` as a partial parser: three
dash-separated digit groups (year up to 4 digits, month/day 1-2 digits),
with the calendar range validation `datetime` performs. -/
def parseDate (s : String) : Option CalDate :=
  match splitOnChar '-' s.toList with
  | [ys, ms, ds] =>
    if ys.length ≤ 4 && ms.length ≤ 2 && ds.length ≤ 2 then
      match parseNatDigits ys, parseNatDigits ms, parseNatDigits ds with
      | some y, some m, some d =>
        if 1 ≤ y && y ≤ 9999 && 1 ≤ m && m ≤ 12 && 1 ≤ d && d ≤ daysInMonth y m
        then some ⟨y, m, d⟩ else none
      | _, _, _ => none
    else none
  | _ => none

def daysBeforeMonth (y m : Nat) : Nat :=
  let base := [0, 31, 59, 90, 120, 151, 181, 212, 243, 273, 304, 334].getD (m - 1) 0
  if m > 2 && isLeapYear y then base + 1 else base

/-- Day count from the proleptic-Gregorian epoch 0001-01-01 (day 0, a
Monday); models `datetime.date` ordering, subtraction and weekday. -/
def dayNumber (d : CalDate) : Nat :=
  365 * (d.year - 1) + (d.year - 1) / 4 - (d.year - 1) / 100 + (d.year - 1) / 400
    + daysBeforeMonth d.year d.month + (d.day - 1)

/-- `routine_date.strftime('%A')`. -/
def weekdayName (d : CalDate) : String :=
  ["Monday", "Tuesday", "Wednesday", "Thursday", "Friday", "Saturday",
   "Sunday"].getD (dayNumber d % 7) ""

/-! ### Numeric helpers -/

/-- `statistics.mean`; callers guard the empty case exactly as the source
does (`statistics.mean` raises on an empty sequence). -/
def meanQ (l : List ℚ) : ℚ := l.sum / l.length

/-- The square of `statistics.stdev` (sample standard deviation, with
denominator `n - 1`), and `0` for fewer than two points — the source
guards every `statistics.stdev` call with a `len > 1` check. -/
def sampleVarQ (l : List ℚ) : ℚ :=
  if 2 ≤ l.length then
    (l.map (fun x => (x - meanQ l) ^ 2)).sum / ((l.length : ℚ) - 1)
  else 0

noncomputable def sampleStdDevR (l : List ℚ) : ℝ := Real.sqrt (sampleVarQ l)

/-! ### Insertion-ordered association lists (Python dicts) -/

def alistPush {κ α : Type} [DecidableEq κ] (k : κ) (v : α) :
    List (κ × List α) → List (κ × List α)
  | [] => [(k, [v])]
  | (k', vs) :: rest =>
    if k' = k then (k', vs ++ [v]) :: rest else (k', vs) :: alistPush k v rest

def alistIncr {κ : Type} [DecidableEq κ] (k : κ) :
    List (κ × Nat) → List (κ × Nat)
  | [] => [(k, 1)]
  | (k', n) :: rest =>
    if k' = k then (k', n + 1) :: rest else (k', n) :: alistIncr k rest

def alistGet {κ α : Type} [DecidableEq κ] (k : κ) : List (κ × α) → Option α
  | [] => none
  | (k', v) :: rest => if k' = k then some v else alistGet k rest

/-- Python `max(d, key=d.get)`: the first key attaining the maximum value
in iteration order (with its value). -/
def argmaxFirst : List (String × ℚ) → Option (String × ℚ)
  | [] => none
  | (k, v) :: rest =>
    match argmaxFirst rest with
    | none => some (k, v)
    | some (k', v') => if v < v' then some (k', v') else some (k, v)

/-- Python `min(d, key=d.get)`: the first key attaining the minimum. -/
def argminFirst : List (String × ℚ) → Option (String × ℚ)
  | [] => none
  | (k, v) :: rest =>
    match argminFirst rest with
    | none => some (k, v)
    | some (k', v') => if v' < v then some (k', v') else some (k, v)

/-! ### A stable sort modelling Python's `sorted` / `list.sort` -/

def insertBy {α : Type} (le : α → α → Bool) (a : α) : List α → List α
  | [] => [a]
  | b :: bs => if le a b then a :: b :: bs else b :: insertBy le a bs

/-- Stable insertion sort; with `le a b := key b ≤ key a` this models
Python's stable `sort(key=..., reverse=True)`. -/
def sortBy {α : Type} (le : α → α → Bool) : List α → List α
  | [] => []
  | a :: as => insertBy le a (sortBy le as)

theorem mem_insertBy {α : Type} (le : α → α → Bool) (a x : α) (l : List α) :
    x ∈ insertBy le a l ↔ x = a ∨ x ∈ l := by
  induction l with
  | nil => simp [insertBy]
  | cons b bs ih =>
    simp only [insertBy]
    split
    · simp
    · simp [ih]; tauto

theorem mem_sortBy {α : Type} (le : α → α → Bool) (x : α) (l : List α) :
    x ∈ sortBy le l ↔ x ∈ l := by
  induction l with
  | nil => simp [sortBy]
  | cons a as ih => simp [sortBy, mem_insertBy, ih]

theorem length_insertBy {α : Type} (le : α → α → Bool) (a : α) (l : List α) :
    (insertBy le a l).length = l.length + 1 := by
  induction l with
  | nil => simp [insertBy]
  | cons b bs ih =>
    simp only [insertBy]
    split <;> simp [ih]

theorem length_sortBy {α : Type} (le : α → α → Bool) (l : List α) :
    (sortBy le l).length = l.length := by
  induction l with
  | nil => simp [sortBy]
  | cons a as ih => simp [sortBy, length_insertBy, ih]

theorem pairwise_insertBy {α : Type} (le : α → α → Bool)
    (htot : ∀ a b, le a b = true ∨ le b a = true)
    (htrans : ∀ a b c, le a b = true → le b c = true → le a c = true)
    (a : α) (l : List α)
    (h : l.Pairwise (fun x y => le x y = true)) :
    (insertBy le a l).Pairwise (fun x y => le x y = true) := by
  induction l with
  | nil => simp [insertBy]
  | cons b bs ih =>
    simp only [insertBy]
    rcases h with - | ⟨hb, hbs⟩
    split
    · rename_i hab
      refine List.Pairwise.cons ?_ (List.Pairwise.cons hb hbs)
      intro y hy
      rcases List.mem_cons.mp hy with rfl | hy
      · exact hab
      · exact htrans a b y hab (hb y hy)
    · rename_i hab
      refine List.Pairwise.cons ?_ (ih hbs)
      intro y hy
      rw [mem_insertBy] at hy
      rcases hy with rfl | hy
      · rcases htot y b with h1 | h1
        · exact absurd h1 (by simpa using hab)
        · exact h1
      · exact hb y hy

theorem sortBy_sorted {α : Type} (le : α → α → Bool)
    (htot : ∀ a b, le a b = true ∨ le b a = true)
    (htrans : ∀ a b c, le a b = true → le b c = true → le a c = true)
    (l : List α) :
    (sortBy le l).Pairwise (fun x y => le x y = true) := by
  induction l with
  | nil => simp [sortBy]
  | cons a as ih => exact pairwise_insertBy le htot htrans a _ ih

/-! ### Data model (models.py) -/

structure RoutineTask where
  id : String
  name : String
  description : String
  time : String
  duration : Int
  category : String
  completed : Bool
deriving DecidableEq

structure DailyRoutine where
  id : String
  name : String
  date : String
  tasks : List RoutineTask
  notes : String
deriving DecidableEq

structure Exercise where
  id : String
  name : String
  sets : Int
  reps : String
  weight : String
  notes : String
deriving DecidableEq

structure WorkoutPlan where
  id : String
  name : String
  description : String
  exercises : List Exercise
  target_muscle_groups : List String
  difficulty : String
  estimated_duration : Int
deriving DecidableEq

structure Meal where
  id : String
  name : String
  calories : Int
  protein : ℚ
  carbs : ℚ
  fat : ℚ
  ingredients : List String
  notes : String
deriving DecidableEq

structure DietPlan where
  id : String
  name : String
  description : String
  meals : List Meal
  daily_calories : Int
  daily_protein : ℚ
  daily_carbs : ℚ
  daily_fat : ℚ
deriving DecidableEq

/-! ### Pattern analyzer: completion patterns -/

/-- `_get_time_period`. -/
def getTimePeriod (hour : Int) : String :=
  if 5 ≤ hour ∧ hour < 9 then "Early Morning"
  else if 9 ≤ hour ∧ hour < 12 then "Morning"
  else if 12 ≤ hour ∧ hour < 17 then "Afternoon"
  else if 17 ≤ hour ∧ hour < 21 then "Evening"
  else "Night"

/-- `get_completion_patterns`'s result; `success_sequences` is the
constant `[]` in the source and is omitted. -/
structure CompletionPatterns where
  best_categories : List (String × List Bool)
  best_times : List (String × List Bool)
  optimal_durations : List (String × List Int)
  completion_by_weekday : List (String × List Bool)
  total_completion_rate : ℚ
deriving DecidableEq

structure PatState where
  cats : List (String × List Bool)
  times : List (String × List Bool)
  durs : List (String × List Int)
  weekdays : List (String × List Bool)
  total : Nat
  done : Nat
deriving DecidableEq

/-- One task of the `get_completion_patterns` loop.  The `try` around the
time parse means an unparsable `time` only skips the `best_times`
bucket. -/
def patTask (weekday : String) (st : PatState) (t : RoutineTask) : PatState :=
  { cats := alistPush t.category t.completed st.cats
    times :=
      match parseHour t.time with
      | some h => alistPush (getTimePeriod h) t.completed st.times
      | none => st.times
    durs := if t.completed then alistPush t.category t.duration st.durs else st.durs
    weekdays := alistPush weekday t.completed st.weekdays
    total := st.total + 1
    done := if t.completed then st.done + 1 else st.done }

def patRoutines (st : PatState) : List DailyRoutine → Except Unit PatState
  | [] => .ok st
  | r :: rest =>
    match parseDate r.date with
    | none => .error ()
    | some d => patRoutines (r.tasks.foldl (patTask (weekdayName d)) st) rest

/-- `get_completion_patterns` (recommendations.py:53).  The
`strptime` on the routine date is outside any `try`, so an unparsable
date raises out of the whole computation. -/
def get_completion_patterns (routines : List DailyRoutine) :
    Except Unit CompletionPatterns :=
  if routines.isEmpty then .ok ⟨[], [], [], [], 0⟩
  else
    match patRoutines ⟨[], [], [], [], 0, 0⟩ routines with
    | .error e => .error e
    | .ok st =>
      .ok ⟨st.cats, st.times, st.durs, st.weekdays,
        if 0 < st.total then (st.done : ℚ) / st.total else 0⟩

/-! ### Pattern analyzer: energy / circadian analysis -/

structure EnergyState where
  hours : List (Int × List ℚ)
  combos : List (String × List ℚ)
deriving DecidableEq

/-- One task of the `_analyze_energy_patterns` loop; the `try` covers the
whole body, and only the `int(...)` time parse can fail, skipping both
appends for that task. -/
def energyTask (weekday : String) (st : EnergyState) (t : RoutineTask) :
    EnergyState :=
  match parseHour t.time with
  | none => st
  | some h =>
    let completionEnergy : ℚ := if t.completed then 1 else 3/10
    let weight0 : ℚ := (t.duration : ℚ) / 60
    let weight : ℚ :=
      if t.category = "Work" ∨ t.category = "Exercise" then weight0 * (3/2)
      else weight0
    { hours := alistPush h (completionEnergy * weight) st.hours
      combos := alistPush (weekday ++ "_" ++ toString h) completionEnergy st.combos }

def energyRoutines (st : EnergyState) : List DailyRoutine → Except Unit EnergyState
  | [] => .ok st
  | r :: rest =>
    match parseDate r.date with
    | none => .error ()
    | some d => energyRoutines (r.tasks.foldl (energyTask (weekdayName d)) st) rest

/-- The 24-entry `hourly_energy` dict, hour 0..23 in insertion order,
defaulting to the neutral baseline 0.5 for hours with no samples. -/
def hourlyFromState (st : EnergyState) : List (Int × ℚ) :=
  (List.range 24).map (fun (h : Nat) =>
    match alistGet ((h : Int)) st.hours with
    | some vs => (((h : Int)), meanQ vs)
    | none => (((h : Int)), 1/2))

def alistExtend {κ α : Type} [DecidableEq κ] (k : κ) (vs : List α) :
    List (κ × List α) → List (κ × List α)
  | [] => [(k, vs)]
  | (k', us) :: rest =>
    if k' = k then (k', us ++ vs) :: rest else (k', us) :: alistExtend k vs rest

/-- `_analyze_weekday_energy`: the source iterates all `energy_data` keys
and keeps those whose string form contains `'_'`; the int hour keys never
do, so only the `"{weekday}_{hour}"` composite entries contribute. -/
def analyze_weekday_energy (combos : List (String × List ℚ)) :
    List (String × ℚ) :=
  let grouped := combos.foldl (fun acc kv =>
    match splitOnChar '_' kv.1.toList with
    | [_] => acc
    | w :: _ :: _ => alistExtend (String.mk w) kv.2 acc
    | [] => acc) []
  grouped.filterMap (fun kv =>
    if kv.2.isEmpty then none else some (kv.1, meanQ kv.2))

/-- `_determine_circadian_type` (second copy, recommendations.py:1059).
`statistics.mean` raises on an empty peak list. -/
def determine_circadian_type (peak_hours : List (Int × ℚ)) : Except Unit String :=
  if peak_hours.isEmpty then .error ()
  else
    let avg := meanQ (peak_hours.map (fun p => (p.1 : ℚ)))
    .ok (if avg ≤ 10 then "Morning Lark"
      else if 18 ≤ avg then "Night Owl"
      else if 10 < avg ∧ avg < 18 then "Mid-day Peak"
      else "Variable Pattern")

structure EnergyPatterns where
  peak_energy_hours : List Int
  low_energy_hours : List Int
  /-- Square of the surfaced `energy_stability` (which is
  `statistics.stdev` of the 24 hourly means — there are always 24, so the
  `len > 1` guard always takes the `stdev` branch). -/
  energyVar : ℚ
  circadian_type : String
  weekday_patterns : List (String × ℚ)
deriving DecidableEq

/-- The surfaced `energy_stability` value. -/
noncomputable def energyStabilityR (e : EnergyPatterns) : ℝ := Real.sqrt e.energyVar

/-- `_analyze_energy_patterns` (recommendations.py:118/1018; both copies
identical).  Int hour keys and string composite keys share one Python
dict but cannot collide, so they are split into two components. -/
def analyze_energy_patterns (routines : List DailyRoutine) :
    Except Unit EnergyPatterns :=
  match energyRoutines ⟨[], []⟩ routines with
  | .error e => .error e
  | .ok st =>
    let hourly := hourlyFromState st
    let peaks := (sortBy (fun a b => decide (b.2 ≤ a.2)) hourly).take 3
    let valleys := (sortBy (fun a b => decide (a.2 ≤ b.2)) hourly).take 3
    match determine_circadian_type peaks with
    | .error e => .error e
    | .ok ct =>
      .ok ⟨peaks.map (fun p => p.1), valleys.map (fun p => p.1),
        sampleVarQ (hourly.map (fun p => p.2)),
        ct, analyze_weekday_energy st.combos⟩

/-! ### Stress resilience -/

/-- Per-routine `daily_stress`.  Note the source's `elif`: a Work task
with duration > 120 whose name also contains a pain keyword contributes
only its 2, never an extra 1. -/
def dailyStress (r : DailyRoutine) : Int :=
  r.tasks.foldl (fun acc t =>
    if t.category = "Work" ∧ 120 < t.duration then acc + 2
    else if anyWordIn t.name ["pain", "relief", "wrist"] then acc + 1
    else acc) 0

/-- Per-routine `daily_recovery`: completed tasks in category
Personal/Evening or whose name contains "stretch". -/
def dailyRecovery (r : DailyRoutine) : Int :=
  r.tasks.foldl (fun acc t =>
    if (t.category = "Personal" ∨ t.category = "Evening" ∨
        containsLower t.name "stretch" = true) ∧ t.completed = true
    then acc + 1 else acc) 0

structure StressData where
  resilience_score : ℚ
  stress_level : String
  recovery_capacity : String
  stress_recovery_ratio : ℚ
deriving DecidableEq

/-- `_calculate_stress_resilience` (recommendations.py:1072; identical
first copy at 198). -/
def calculate_stress_resilience (routines : List DailyRoutine) : StressData :=
  let stressList := routines.map (fun r => (dailyStress r : ℚ))
  let recList := routines.map (fun r => (dailyRecovery r : ℚ))
  let avgStress := if stressList.isEmpty then 0 else meanQ stressList
  let avgRec := if recList.isEmpty then 0 else meanQ recList
  { resilience_score := max 0 (min 1 ((avgRec - avgStress + 3) / 6))
    stress_level :=
      if 3 < avgStress then "High" else if 1 < avgStress then "Moderate" else "Low"
    recovery_capacity :=
      if 3 < avgRec then "Excellent"
      else if 1 < avgRec then "Good" else "Needs Improvement"
    stress_recovery_ratio := avgRec / max avgStress 1 }

/-! ### Consistency -/

/-- Lexicographic comparison of Python strings by code point, as used by
`sorted(routines_data, key=lambda x: x['date'])` on the raw date
strings. -/
def charListLe : List Char → List Char → Bool
  | [], _ => true
  | _ :: _, [] => false
  | a :: as, b :: bs =>
    if a < b then true else if b < a then false else charListLe as bs

def dateLe (a b : DailyRoutine) : Bool := charListLe a.date.toList b.date.toList

def sortByDate (routines : List DailyRoutine) : List DailyRoutine :=
  sortBy dateLe routines

/-- A routine's daily completion rate (`completed / total`, 0 when the
routine has no tasks). -/
def completionRate (r : DailyRoutine) : ℚ :=
  if r.tasks.isEmpty then 0
  else (r.tasks.countP (fun t => t.completed) : ℚ) / r.tasks.length

inductive ConsistencyResult where
  /-- `{'score': 0, 'trend': 'insufficient_data'}` for < 3 routines. -/
  | insufficient : ConsistencyResult
  /-- The general record; `var` is the square of `statistics.stdev` of
  the daily completion rates (the surfaced `variation`; the surfaced
  `score` is `1 - stdev`). -/
  | stats (var : ℚ) (average_completion : ℚ) (trend : String) : ConsistencyResult
deriving DecidableEq

/-- The trend block of `_measure_consistency`: Python `rates[-3:]`,
`rates[-6:-3]`, `rates[:-3]`. -/
def consTrend (rates : List ℚ) : String :=
  if 5 ≤ rates.length then
    let recentAvg := meanQ (rates.drop (rates.length - 3))
    let earlierAvg :=
      if 6 ≤ rates.length then meanQ ((rates.drop (rates.length - 6)).take 3)
      else meanQ (rates.take (rates.length - 3))
    if earlierAvg + 1/10 < recentAvg then "improving"
    else if recentAvg < earlierAvg - 1/10 then "declining"
    else "stable"
  else "establishing"

/-- `_measure_consistency` (recommendations.py:238). -/
def measure_consistency (routines : List DailyRoutine) : ConsistencyResult :=
  if routines.length < 3 then .insufficient
  else
    let rates := (sortByDate routines).map completionRate
    .stats (sampleVarQ rates) (meanQ rates) (consTrend rates)

/-- The surfaced `score` field: 0 in the insufficient-data branch, else
`1 - statistics.stdev(completion_rates)`. -/
noncomputable def consistencyScoreR : ConsistencyResult → ℝ
  | .insufficient => 0
  | .stats v _ _ => 1 - Real.sqrt (v : ℝ)

/-- The surfaced `trend` field. -/
def consTrendOf : ConsistencyResult → String
  | .insufficient => "insufficient_data"
  | .stats _ _ t => t

/-! ### Recovery needs -/

def get_recovery_recommendation (need : String) : String :=
  if need = "critical" then
    "Schedule mandatory rest days and add daily stretching sessions"
  else if need = "high" then
    "Increase recovery activities and consider lighter workout days"
  else if need = "moderate" then
    "Add post-workout stretching and one dedicated recovery day per week"
  else if need = "adequate" then "Maintain current recovery routine"
  else "Monitor recovery needs"

def dailyExerciseDuration (r : DailyRoutine) : Int :=
  (r.tasks.filterMap (fun t =>
    if t.category = "Exercise" then some t.duration else none)).sum

def completedExerciseDuration (r : DailyRoutine) : Int :=
  (r.tasks.filterMap (fun t =>
    if t.category = "Exercise" ∧ t.completed = true then some t.duration
    else none)).sum

def dailyRecoveryActs (r : DailyRoutine) : Nat :=
  r.tasks.countP (fun t =>
    anyWordIn t.name ["stretch", "recovery", "rest", "massage", "relaxation"]
      && t.completed)

structure RecoveryData where
  need_level : String
  avg_exercise_duration : ℚ
  recovery_ratio : ℚ
  high_intensity_days : Nat
  recommendation : String
deriving DecidableEq

/-- `_assess_recovery_requirements` (recommendations.py:279). -/
def assess_recovery_requirements (routines : List DailyRoutine) : RecoveryData :=
  let totalDays := routines.length
  let highDays := routines.countP (fun r => decide (60 < dailyExerciseDuration r))
  let recoveryActs := (routines.map (fun r => dailyRecoveryActs r)).sum
  let totalExercise := (routines.map (fun r => completedExerciseDuration r)).sum
  let avg : ℚ := if 0 < totalDays then (totalExercise : ℚ) / totalDays else 0
  let rr : ℚ := (recoveryActs : ℚ) / (max highDays 1 : ℚ)
  let need :=
    if 90 < avg ∧ rr < 1/2 then "critical"
    else if 60 < avg ∧ rr < 4/5 then "high"
    else if 30 < avg ∧ rr < 1 then "moderate"
    else "adequate"
  ⟨need, avg, rr, highDays, get_recovery_recommendation need⟩

/-! ### Wellness trajectory, risk factors, strengths -/

inductive TrajectoryResult where
  /-- `{'prediction': 'Insufficient data', 'confidence': 0}` (< 5 routines). -/
  | insufficientData : TrajectoryResult
  /-- `{'prediction': 'Building baseline', 'confidence': 0.3}` (< 3 trend
  points; unreachable given the ≥ 5 guard, kept for fidelity). -/
  | buildingBaseline : TrajectoryResult
  | forecast (current_performance : ℚ) (trend_direction : String) (momentum : ℚ)
      (confidence : ℚ) (predicted_next_week : ℚ)
      (recommendations_urgency : String) : TrajectoryResult
deriving DecidableEq

/-- `_predict_wellness_trajectory` (recommendations.py:1112). -/
def predict_wellness_trajectory (routines : List DailyRoutine) : TrajectoryResult :=
  if routines.length < 5 then .insufficientData
  else
    let trends := ((sortByDate routines).drop (routines.length - 7)).map completionRate
    if 3 ≤ trends.length then
      let avgRecent := meanQ (trends.drop (trends.length - 3))
      let first := trends.headD 0
      let last := trends.getLastD 0
      .forecast avgRecent (if first < last then "improving" else "declining")
        ((last - first) / trends.length)
        (min (9/10) ((trends.length : ℚ) / 10))
        (max 0 (min 1 (avgRecent + (last - first) / trends.length)))
        (if avgRecent < 3/5 then "high"
         else if avgRecent < 4/5 then "medium" else "low")
    else .buildingBaseline

def workDuration (r : DailyRoutine) : Int :=
  (r.tasks.filterMap (fun t =>
    if t.category = "Work" then some t.duration else none)).sum

def painTaskCount (r : DailyRoutine) : Nat :=
  r.tasks.countP (fun t => anyWordIn t.name ["pain", "relief", "wrist"])

/-- `_identify_risk_factors` (recommendations.py:374).  Only invoked with
a non-empty history (`generate_wellness_profile` returns `{}` first), so
Lean's division-by-zero convention is never exercised. -/
def identify_risk_factors (routines : List DailyRoutine) : List String :=
  let totalDays : ℚ := routines.length
  let painFreq : ℚ := ((routines.map (fun r => painTaskCount r)).sum : ℚ)
  let overworkDays : ℚ := (routines.countP (fun r => decide (480 < workDuration r)) : ℚ)
  let poorDays : ℚ := (routines.countP (fun r => decide (completionRate r < 1/2)) : ℚ)
  let exerciseDays : ℚ :=
    (routines.countP (fun r =>
      r.tasks.any (fun t => t.category == "Exercise" && t.completed)) : ℚ)
  (if 3/10 < painFreq / totalDays then ["Chronic pain indicators detected"] else []) ++
  (if 2/5 < overworkDays / totalDays then ["Excessive work hours pattern"] else []) ++
  (if 3/10 < poorDays / totalDays then ["Low routine adherence trend"] else []) ++
  (if exerciseDays / totalDays < 2/5 then ["Insufficient physical activity"] else [])

def lowerStr (s : String) : String := String.mk (lowerChars s.toList)

/-- Per-category success rates from `best_categories`, insertion order. -/
def catSuccess (patterns : CompletionPatterns) : List (String × ℚ) :=
  patterns.best_categories.filterMap (fun kv =>
    if kv.2.isEmpty then none
    else some (kv.1, (kv.2.countP id : ℚ) / kv.2.length))


/-- Decidable form of the strengths check `consistency_data['score'] > 0.8`:
the score is `1 - stdev`, and `1 - stdev > 0.8 ↔ variance < 0.04`. -/
def consScoreAbove : ConsistencyResult → Bool
  | .insufficient => false
  | .stats v _ _ => decide (v < 1/25)

/-- `_identify_strengths` (recommendations.py:426).  `patterns` is always
a truthy six-key dict, so the source's `if not patterns` early fallback
is dead code. -/
def identify_strengths (routines : List DailyRoutine) : Except Unit (List String) :=
  match get_completion_patterns routines with
  | .error e => .error e
  | .ok patterns =>
    let s1 :=
      if 4/5 < patterns.total_completion_rate then ["Excellent routine adherence"]
      else []
    let s2 := (catSuccess patterns).filterMap (fun kv =>
      if 17/20 < kv.2 then some ("Strong " ++ lowerStr kv.1 ++ " routine consistency")
      else none)
    let s3 :=
      if consScoreAbove (measure_consistency routines) then
        ["Highly consistent daily patterns"]
      else []
    let s4 :=
      if (assess_recovery_requirements routines).need_level = "adequate" then
        ["Well-balanced activity and recovery"]
      else []
    let strengths := s1 ++ s2 ++ s3 ++ s4
    .ok (if strengths.isEmpty then ["Building healthy habits foundation"] else strengths)

/-! ### Wellness profile -/

structure WellnessProfile where
  energy_patterns : EnergyPatterns
  stress_resilience : StressData
  consistency_score : ConsistencyResult
  recovery_needs : RecoveryData
  wellness_trajectory : TrajectoryResult
  risk_factors : List String
  strengths : List String
deriving DecidableEq

/-- `generate_wellness_profile` (recommendations.py:31): `none` models the
falsy `{}` returned for an empty history.  The per-instance memo only
avoids recomputation; the function is pure in the history. -/
def generate_wellness_profile (routines : List DailyRoutine) :
    Except Unit (Option WellnessProfile) :=
  if routines.isEmpty then .ok none
  else
    match analyze_energy_patterns routines with
    | .error e => .error e
    | .ok ep =>
      match identify_strengths routines with
      | .error e => .error e
      | .ok sts =>
        .ok (some ⟨ep, calculate_stress_resilience routines,
          measure_consistency routines, assess_recovery_requirements routines,
          predict_wellness_trajectory routines, identify_risk_factors routines,
          sts⟩)

/-! ### Workout recommendations -/

/-- `_get_recent_workouts` (recommendations.py:1578): names of completed
Exercise tasks within the last `days` days; `today` is `self.today` as a
day number, every routine date is parsed (and can raise). -/
def recentWorkoutsGo (today days : Int) (acc : List String) :
    List DailyRoutine → Except Unit (List String)
  | [] => .ok acc
  | r :: rest =>
    match parseDate r.date with
    | none => .error ()
    | some d =>
      let names :=
        if today - days ≤ (dayNumber d : Int) then
          r.tasks.filterMap (fun t =>
            if t.category = "Exercise" ∧ t.completed = true then some t.name
            else none)
        else []
      recentWorkoutsGo today days (acc ++ names) rest

/-- `_get_last_workout_date` (recommendations.py:1592). -/
def lastWorkoutGo (acc : Option Int) :
    List DailyRoutine → Except Unit (Option Int)
  | [] => .ok acc
  | r :: rest =>
    match parseDate r.date with
    | none => .error ()
    | some d =>
      let hasW := r.tasks.any (fun t => t.category == "Exercise" && t.completed)
      let acc' :=
        if hasW then
          match acc with
          | none => some (dayNumber d : Int)
          | some x =>
            if x < (dayNumber d : Int) then some (dayNumber d : Int) else some x
        else acc
      lastWorkoutGo acc' rest

def muscleKeywords : List (String × List String) :=
  [("Chest", ["chest", "push", "press"]),
   ("Back", ["back", "pull", "row"]),
   ("Legs", ["leg", "squat", "lunge"]),
   ("Arms", ["arm", "bicep", "tricep"]),
   ("Core", ["core", "abs", "plank"]),
   ("Shoulders", ["shoulder", "overhead"]),
   ("Cardio", ["cardio", "run", "bike"]),
   ("Wrists", ["wrist", "relief", "pain"])]

/-- `_analyze_muscle_group_usage` (recommendations.py:1605). -/
def analyze_muscle_group_usage (recentWorkouts : List String) :
    List (String × Nat) :=
  recentWorkouts.foldl (fun acc nm =>
    muscleKeywords.foldl (fun acc2 kv =>
      if kv.2.any (fun k => containsLower nm k) then alistIncr kv.1 acc2 else acc2)
      acc) []

def painLevelGo (today : Int) (pain total : Nat) :
    List DailyRoutine → Except Unit (Nat × Nat)
  | [] => .ok (pain, total)
  | r :: rest =>
    match parseDate r.date with
    | none => .error ()
    | some d =>
      if today - 3 ≤ (dayNumber d : Int) then
        painLevelGo today
          (pain + r.tasks.countP (fun t =>
            anyWordIn t.name ["pain", "relief", "wrist", "stretch"]))
          (total + r.tasks.length) rest
      else painLevelGo today pain total rest

/-- `_assess_pain_level` (recommendations.py:1629). -/
def assess_pain_level (routines : List DailyRoutine) (today : Int) :
    Except Unit String :=
  match painLevelGo today 0 0 routines with
  | .error e => .error e
  | .ok (pain, total) =>
    .ok (if total = 0 then "unknown"
      else
        let ratio : ℚ := (pain : ℚ) / total
        if 3/10 < ratio then "high"
        else if 3/20 < ratio then "moderate" else "low")

/-- `_score_workout_recommendation` (recommendations.py:1658).
`recentlyWorked` is the key set of the muscle-group usage dict; the
intersection sizes are counts of distinct common groups, hence the
`dedup` mirroring Python's `set(...)`. -/
def score_workout_recommendation (w : WorkoutPlan) (days_since_workout : Int)
    (recentlyWorked : List String) (pain_level : String) : ℚ :=
  let s0 : ℚ := 1/2
  let s1 :=
    if days_since_workout = 0 then s0 * (1/5)
    else if days_since_workout = 1 then s0 * (2/5)
    else if 2 ≤ days_since_workout then s0 * 1
    else s0
  let s2 :=
    if pain_level = "high" then
      (if w.target_muscle_groups.contains "Wrists" ∨ w.difficulty = "Beginner"
       then s1 * (13/10) else s1 * (3/10))
    else if pain_level = "moderate" ∧ w.difficulty = "Advanced" then s1 * (7/10)
    else s1
  let inter :=
    (w.target_muscle_groups.dedup).filter (fun g => recentlyWorked.contains g)
  let s3 :=
    if inter.isEmpty then s2 * (7/5)
    else if inter.length = 1 then s2 * (11/10)
    else s2 * (4/5)
  let s4 :=
    if w.estimated_duration ≤ 30 then s3 * (6/5)
    else if 60 < w.estimated_duration then s3 * (9/10)
    else s3
  min s4 1

/-- `_generate_workout_reason` (recommendations.py:1701). -/
def generate_workout_reason (w : WorkoutPlan) (days_since_workout : Int)
    (recentlyWorked : List String) (pain_level : String) : String :=
  let r1 :=
    if 2 ≤ days_since_workout then
      [toString days_since_workout ++ " days since last workout"]
    else []
  let r2 :=
    if pain_level = "high" ∧ w.target_muscle_groups.contains "Wrists" = true then
      ["includes wrist-friendly exercises"]
    else []
  let r3 :=
    if ((w.target_muscle_groups.dedup).filter
        (fun g => recentlyWorked.contains g)).isEmpty then
      ["targets fresh muscle groups"]
    else []
  let r4 := if w.estimated_duration ≤ 30 then ["quick and manageable duration"] else []
  let r5 :=
    if w.difficulty = "Beginner" ∧ (pain_level = "high" ∨ pain_level = "moderate")
    then ["gentle intensity for recovery"] else []
  let reasons := r1 ++ r2 ++ r3 ++ r4 ++ r5
  if reasons.isEmpty then "Good fit for your routine"
  else "Perfect because it " ++ String.intercalate ", " reasons

/-- Per-period success rates from `best_times`, in insertion order. -/
def timeSuccess (patterns : CompletionPatterns) : List (String × ℚ) :=
  patterns.best_times.filterMap (fun kv =>
    if kv.2.isEmpty then none
    else some (kv.1, (kv.2.countP id : ℚ) / kv.2.length))

/-- `_suggest_workout_time` (recommendations.py:1726; the workout argument
is unused in the source as well). -/
def suggest_workout_time (patterns : CompletionPatterns) : String :=
  match argmaxFirst (timeSuccess patterns) with
  | none => "06:30"
  | some (best, _) =>
    if best = "Early Morning" then "06:30"
    else if best = "Morning" then "10:00"
    else if best = "Afternoon" then "14:00"
    else if best = "Evening" then "17:00"
    else if best = "Night" then "20:00"
    else "06:30"

structure WorkoutRec where
  workout : WorkoutPlan
  score : ℚ
  reason : String
  best_time : String
  priority : String
deriving DecidableEq

/-- `recommend_workouts` (recommendations.py:1526).  The source calls
`_suggest_workout_time` (hence `get_completion_patterns`) inside the loop
for each passing workout; it raises exactly when the earlier date parses
would already have raised, so it is hoisted before the loop here. -/
def recommend_workouts (workouts : List WorkoutPlan) (routines : List DailyRoutine)
    (today : Int) : Except Unit (List WorkoutRec) :=
  if workouts.isEmpty then .ok []
  else
    match recentWorkoutsGo today 7 [] routines with
    | .error e => .error e
    | .ok recent =>
      match lastWorkoutGo none routines with
      | .error e => .error e
      | .ok lastW =>
        let daysSince : Int :=
          match lastW with
          | some d => today - d
          | none => 7
        let mg := (analyze_muscle_group_usage recent).map (fun kv => kv.1)
        match assess_pain_level routines today with
        | .error e => .error e
        | .ok pain =>
          match get_completion_patterns routines with
          | .error e => .error e
          | .ok patterns =>
            let recs := workouts.filterMap (fun w =>
              let score := score_workout_recommendation w daysSince mg pain
              if 1/2 < score then
                some ⟨w, score, generate_workout_reason w daysSince mg pain,
                  suggest_workout_time patterns,
                  if 4/5 < score then "high"
                  else if 7/10 < score then "medium" else "low"⟩
              else none)
            .ok ((sortBy (fun a b => decide (b.score ≤ a.score)) recs).take 3)

/-! ### Meal recommendations -/

/-- `_get_recent_meals` (recommendations.py:1798).  Python
`task['description'] or task['name']` picks the name when the description
is empty (falsy). -/
def recentMealsGo (today : Int) (acc : List String) :
    List DailyRoutine → Except Unit (List String)
  | [] => .ok acc
  | r :: rest =>
    match parseDate r.date with
    | none => .error ()
    | some d =>
      let ms :=
        if today - 7 ≤ (dayNumber d : Int) then
          r.tasks.filterMap (fun t =>
            if anyWordIn t.name ["breakfast", "lunch", "dinner", "meal"] then
              some (if t.description = "" then t.name else t.description)
            else none)
        else []
      recentMealsGo today (acc ++ ms) rest

structure NutPrefs where
  avg_calories : ℚ
  avg_protein : ℚ
  avg_carbs : ℚ
  avg_fat : ℚ
  favorite_ingredients : List String
deriving DecidableEq

/-- `_analyze_nutritional_patterns` (recommendations.py:1813): `none`
models the falsy `{}` when the catalog holds no meals.
`Counter.most_common(10)` is a stable count-descending sort over keys in
first-occurrence order. -/
def analyze_nutritional_patterns (diets : List DietPlan) : Option NutPrefs :=
  let meals := (diets.map (fun d => d.meals)).flatten
  if meals.isEmpty then none
  else
    let n : ℚ := meals.length
    let ingCounts := meals.foldl (fun acc m =>
      m.ingredients.foldl (fun acc2 ing => alistIncr (lowerStr ing) acc2) acc) []
    let favs :=
      ((sortBy (fun a b => decide (b.2 ≤ a.2)) ingCounts).take 10).map
        (fun kv => kv.1)
    some ⟨(meals.map (fun m => (m.calories : ℚ))).sum / n,
      (meals.map (fun m => m.protein)).sum / n,
      (meals.map (fun m => m.carbs)).sum / n,
      (meals.map (fun m => m.fat)).sum / n, favs⟩

/-- `_get_current_meal_time` (recommendations.py:1846); `hour` is
`self.current_time.hour`. -/
def get_current_meal_time (hour : Int) : String :=
  if 5 ≤ hour ∧ hour < 10 then "Breakfast"
  else if 11 ≤ hour ∧ hour < 15 then "Lunch"
  else if 17 ≤ hour ∧ hour < 21 then "Dinner"
  else "Snack"

/-- Python `recent_meal.lower().split()` over all recent meal texts
(whitespace split, empties dropped). -/
def recentTokens (recentMeals : List String) : List String :=
  (recentMeals.map (fun s =>
    ((lowerStr s).split (fun c => c.isWhitespace)).filter (fun w => w ≠ ""))).flatten

/-- `_score_meal_recommendation` (recommendations.py:1859).  The overlap
factor `1 - 0.2*overlap` can drive the product negative; only the final
`min` cap is applied. -/
def score_meal_recommendation (meal : Meal) (recentMeals : List String)
    (prefs : Option NutPrefs) (meal_time : String) : ℚ :=
  let ings := meal.ingredients.map lowerStr
  let toks := recentTokens recentMeals
  let overlap : Nat :=
    ings.countP (fun ing => toks.any (fun tk => charsContain ing.toList tk.toList))
  let s1 : ℚ := if 0 < overlap then (1/2) * (1 - (overlap : ℚ) * (1/5)) else 1/2
  let s2 :=
    match prefs with
    | some p =>
      s1 * (1 + (ings.countP (fun ing => p.favorite_ingredients.contains ing) : ℚ)
        * (1/10))
    | none => s1
  let s3 :=
    match prefs with
    | some p =>
      let diff := |(meal.calories : ℚ) - p.avg_calories|
      if diff < 100 then s2 * (6/5) else if 200 < diff then s2 * (4/5) else s2
    | none => s2
  let s4 :=
    if meal_time = "Breakfast" ∧
        anyWordIn meal.name ["breakfast", "morning", "oatmeal", "yogurt"] = true
    then s3 * (13/10)
    else if meal_time = "Lunch" ∧
        anyWordIn meal.name ["lunch", "wrap", "salad", "soup"] = true
    then s3 * (13/10)
    else if meal_time = "Dinner" ∧
        anyWordIn meal.name ["dinner", "pasta", "bowl", "recovery"] = true
    then s3 * (13/10)
    else s3
  min s4 1

/-- `_generate_meal_reason` (recommendations.py:1901). -/
def generate_meal_reason (meal : Meal) (recentMeals : List String)
    (prefs : Option NutPrefs) (meal_time : String) : String :=
  let ings := meal.ingredients.map lowerStr
  let r1 :=
    match prefs with
    | some p =>
      let fav := ings.filter (fun ing => p.favorite_ingredients.contains ing)
      if fav.isEmpty then []
      else ["includes your favorites: " ++ String.intercalate ", " (fav.take 2)]
    | none => []
  let r2 :=
    match prefs with
    | some p =>
      if |(meal.calories : ℚ) - p.avg_calories| < 50 then ["perfect calorie match"]
      else []
    | none => []
  let toks := recentTokens recentMeals
  let uniq := ings.filter (fun ing =>
    !(toks.any (fun tk => charsContain ing.toList tk.toList)))
  let r3 := if 2 ≤ uniq.length then ["adds variety to your week"] else []
  let r4 :=
    if containsLower meal.name (lowerStr meal_time) then
      ["perfect for " ++ lowerStr meal_time]
    else []
  let reasons := r1 ++ r2 ++ r3 ++ r4
  if reasons.isEmpty then "Nutritious and balanced option"
  else "Great choice - " ++ String.intercalate ", " reasons

structure MealRec where
  meal : Meal
  score : ℚ
  reason : String
  meal_time : String
  priority : String
deriving DecidableEq

/-- `recommend_meals` (recommendations.py:1753); `hour` is
`current_time.hour`, `today` the day number of `self.today`. -/
def recommend_meals (diets : List DietPlan) (routines : List DailyRoutine)
    (today : Int) (hour : Int) : Except Unit (List MealRec) :=
  if diets.isEmpty then .ok []
  else
    match recentMealsGo today [] routines with
    | .error e => .error e
    | .ok recent =>
      let prefs := analyze_nutritional_patterns diets
      let tod := get_current_meal_time hour
      let allMeals := (diets.map (fun d => d.meals)).flatten
      let recs := allMeals.filterMap (fun m =>
        let score := score_meal_recommendation m recent prefs tod
        if 2/5 < score then
          some ⟨m, score, generate_meal_reason m recent prefs tod, tod,
            if 4/5 < score then "high" else if 3/5 < score then "medium" else "low"⟩
        else none)
      .ok ((sortBy (fun a b => decide (b.score ≤ a.score)) recs).take 4)

/-! ### Routine / scheduling suggestions, proactive interventions -/

/-- A routine/scheduling suggestion; the `description` strings carry only
`%`-formatted copies of the numbers already present in the patterns and
are presentation-only, so they are not modelled. -/
structure Suggestion where
  stype : String
  title : String
  action : String
  priority : String
deriving DecidableEq

/-- `suggest_routine_optimizations` (recommendations.py:463).  The
source's `if not patterns` branch is dead code (`get_completion_patterns`
always returns a truthy six-key dict) and contains only an orphaned
nested `def`. -/
def suggest_routine_optimizations (routines : List DailyRoutine) :
    Except Unit (List Suggestion) :=
  match get_completion_patterns routines with
  | .error e => .error e
  | .ok patterns =>
    let cs := catSuccess patterns
    let catSug : List Suggestion :=
      match argmaxFirst cs, argminFirst cs with
      | some (best, _), some (worst, wv) =>
        if wv < 3/5 then
          [⟨"category_optimization", "Reduce " ++ worst ++ " Tasks",
            "Move " ++ worst ++ " tasks to " ++ best ++ " time periods", "high"⟩]
        else []
      | _, _ => []
    let ts := timeSuccess patterns
    let timeSug : List Suggestion :=
      match argmaxFirst ts with
      | some (best, bv) =>
        if 4/5 < bv then
          [⟨"timing_optimization", "Leverage Your " ++ best ++ " Productivity",
            "Move critical tasks to " ++ best, "medium"⟩]
        else []
      | none => []
    let durSug : List Suggestion :=
      patterns.optimal_durations.filterMap (fun kv =>
        if 3 < kv.2.length then
          some ⟨"duration_optimization", "Optimize " ++ kv.1 ++ " Duration",
            "Set " ++ kv.1 ++ " tasks to the category's average duration", "low"⟩
        else none)
    .ok (catSug ++ timeSug ++ durSug)

/-- `suggest_optimal_scheduling` (recommendations.py:936 and 1936,
identical copies). -/
def suggest_optimal_scheduling (routines : List DailyRoutine) :
    Except Unit (List Suggestion) :=
  match get_completion_patterns routines with
  | .error e => .error e
  | .ok patterns =>
    let tp := patterns.best_times.filterMap (fun kv =>
      if 3 ≤ kv.2.length then
        some (kv.1, (kv.2.countP id : ℚ) / kv.2.length)
      else none)
    if tp.isEmpty then .ok []
    else
      let timeSug : List Suggestion :=
        match argmaxFirst tp, argminFirst tp with
        | some (best, bv), some (_, wv) =>
          if 1/5 < bv - wv then
            [⟨"schedule_optimization", "Maximize Your " ++ best ++ " Peak",
              "Schedule important tasks during " ++ best, "high"⟩]
          else []
        | _, _ => []
      let wp := patterns.completion_by_weekday.filterMap (fun kv =>
        if 2 ≤ kv.2.length then
          some (kv.1, (kv.2.countP id : ℚ) / kv.2.length)
        else none)
      let weekSug : List Suggestion :=
        match argmaxFirst wp, argminFirst wp with
        | some (best, bv), some (_, wv) =>
          if 3 < wp.length ∧ 3/20 < bv - wv then
            [⟨"weekly_optimization", "Leverage Your " ++ best ++ " Energy",
              "Schedule challenging tasks on " ++ best ++ "s", "medium"⟩]
          else []
        | _, _ => []
      .ok (timeSug ++ weekSug)

structure Intervention where
  itype : String
  title : String
  action : String
  ai_confidence : ℚ
  priority : String
deriving DecidableEq

/-- `generate_proactive_interventions` (recommendations.py:1148).  The
`energy_stability > 0.3` test is `sqrt(energyVar) > 0.3`, i.e.
`energyVar > 0.09`.  The trajectory's `confidence` default 0.5 of
`.get` is never used: every trajectory dict carries a `confidence`. -/
def generate_proactive_interventions (routines : List DailyRoutine) :
    Except Unit (List Intervention) :=
  match generate_wellness_profile routines with
  | .error e => .error e
  | .ok none => .ok []
  | .ok (some profile) =>
    let i1 : List Intervention :=
      if 9/100 < profile.energy_patterns.energyVar then
        [⟨"energy_stabilization", "Stabilize Your Energy Patterns",
          "Schedule demanding tasks during your peak hours", 17/20, "high"⟩]
      else []
    let i2 : List Intervention :=
      if profile.stress_resilience.resilience_score < 3/5 then
        [⟨"stress_management", "Enhance Stress Resilience",
          "Add 15-minute mindfulness breaks between work sessions", 39/50, "high"⟩]
      else []
    let i3 : List Intervention :=
      match profile.wellness_trajectory with
      | .forecast _ dir _ conf _ _ =>
        if dir = "declining" then
          [⟨"trajectory_correction", "Reverse Declining Performance",
            "Simplify routines and focus on 3 core daily habits", conf, "urgent"⟩]
        else []
      | _ => []
    .ok (sortBy (fun a b => decide (b.ai_confidence ≤ a.ai_confidence))
      (i1 ++ i2 ++ i3))

/-! ### Recommendation summary -/

structure Summary where
  total : Nat
  routine_tips : Nat
  workouts : Nat
  meals : Nat
  scheduling : Nat
  ai_interventions : Nat
  high_priority : Nat
  urgent_interventions : Nat
  ai_confidence : ℚ
  ai_status : String
  has_wellness_profile : Bool
  profile_completeness : ℚ
deriving DecidableEq

/-- Module-level `get_recommendation_summary` (recommendations.py:2353),
parameterized by the stored collections and the request clock
(`today` day number / `hour`), which the source reads from its data
manager and `datetime`.  `high_priority` counts only routine, workout and
scheduling items (meals are excluded by the source).  `ai_confidence`
keeps its 0.5 default when the wellness profile is falsy (empty history)
and is `min(0.95, max(0.3, n/10))` otherwise.  The profile dict has
exactly 7 keys when truthy, so `profile_completeness` is `min(1, 7/7)`. -/
def get_recommendation_summary (routines : List DailyRoutine)
    (workouts : List WorkoutPlan) (diets : List DietPlan)
    (today : Int) (hour : Int) : Except Unit Summary :=
  match suggest_routine_optimizations routines with
  | .error e => .error e
  | .ok rsug =>
    match recommend_workouts workouts routines today with
    | .error e => .error e
    | .ok wrecs =>
      match recommend_meals diets routines today hour with
      | .error e => .error e
      | .ok mrecs =>
        match suggest_optimal_scheduling routines with
        | .error e => .error e
        | .ok ssug =>
          match generate_proactive_interventions routines with
          | .error e => .error e
          | .ok ivs =>
            match generate_wellness_profile routines with
            | .error e => .error e
            | .ok profile =>
              let highPriority := rsug.countP (fun s => s.priority == "high")
                + wrecs.countP (fun w => w.priority == "high")
                + ssug.countP (fun s => s.priority == "high")
              let urgent := ivs.countP (fun i => i.priority == "urgent")
              let aiConf : ℚ :=
                if profile.isSome then
                  min (19/20) (max (3/10) ((routines.length : ℚ) / 10))
                else 1/2
              let aiStatus :=
                if aiConf < 1/2 then "Learning"
                else if aiConf < 7/10 then "Analyzing"
                else if aiConf < 9/10 then "Optimizing"
                else "Mastered"
              .ok ⟨rsug.length + wrecs.length + mrecs.length + ssug.length
                  + ivs.length,
                rsug.length, wrecs.length, mrecs.length, ssug.length, ivs.length,
                highPriority, urgent, aiConf, aiStatus, profile.isSome,
                if profile.isSome then min 1 ((7 : ℚ) / 7) else 0⟩

/-! ### Claim-side (spec-worded) definitions for refinement comparisons -/

/-- The spec/claim's additive reading of the stress counter: +2 for every
long Work task AND +1 for every pain-keyword task (the source's `elif`
makes these mutually exclusive instead). -/
def claimDailyStress (r : DailyRoutine) : Int :=
  2 * (r.tasks.countP (fun t => decide (t.category = "Work" ∧ 120 < t.duration)) : Int)
    + (r.tasks.countP (fun t => anyWordIn t.name ["pain", "relief", "wrist"]) : Int)

/-- Population variance: square of the population standard deviation the
claim says `energy_stability` equals. -/
def popVarQ (l : List ℚ) : ℚ :=
  (l.map (fun x => (x - meanQ l) ^ 2)).sum / l.length

/-- The claim's population standard deviation. -/
noncomputable def popStdDevR (l : List ℚ) : ℝ := Real.sqrt (popVarQ l)

/-- The claim's workout recovery factor (×0.2 at 0 days, ×0.4 at 1 day,
×1.0 at ≥ 2 days). -/
def claimRecoveryFactor (days : Int) : ℚ :=
  if days = 0 then 1/5 else if days = 1 then 2/5 else 1

/-- The claim's pain factor. -/
def claimPainFactor (pain : String) (w : WorkoutPlan) : ℚ :=
  if pain = "high" then
    (if w.target_muscle_groups.contains "Wrists" ∨ w.difficulty = "Beginner"
     then 13/10 else 3/10)
  else if pain = "moderate" ∧ w.difficulty = "Advanced" then 7/10
  else 1

/-- The claim's muscle-balance factor (disjoint ×1.4, exactly one overlap
×1.1, else ×0.8). -/
def claimBalanceFactor (w : WorkoutPlan) (recent : List String) : ℚ :=
  let inter := (w.target_muscle_groups.dedup).filter (fun g => recent.contains g)
  if inter.isEmpty then 7/5 else if inter.length = 1 then 11/10 else 4/5

/-- The claim's duration factor (≤30 min ×1.2, >60 min ×0.9). -/
def claimDurationFactor (w : WorkoutPlan) : ℚ :=
  if w.estimated_duration ≤ 30 then 6/5
  else if 60 < w.estimated_duration then 9/10 else 1

/-! ### C2: stress / recovery counters -/

theorem stressFold (l : List RoutineTask) (acc : Int) :
    l.foldl (fun a t =>
      if t.category = "Work" ∧ 120 < t.duration then a + 2
      else if anyWordIn t.name ["pain", "relief", "wrist"] then a + 1
      else a) acc
    = acc + 2 * (l.countP (fun t => decide (t.category = "Work" ∧ 120 < t.duration)) : Int)
        + (l.countP (fun t => anyWordIn t.name ["pain", "relief", "wrist"]
            && !(decide (t.category = "Work" ∧ 120 < t.duration))) : Int) := by
  induction l generalizing acc with
  | nil => simp
  | cons t ts ih =>
    simp only [List.foldl_cons, List.countP_cons, ih]
    by_cases hA : t.category = "Work" ∧ 120 < t.duration
    · simp [hA]
      ring
    · by_cases hB : anyWordIn t.name ["pain", "relief", "wrist"] = true
      · simp [hA, hB]
        ring
      · simp [hA, hB]

theorem recoveryFold (l : List RoutineTask) (acc : Int) :
    l.foldl (fun a t =>
      if (t.category = "Personal" ∨ t.category = "Evening" ∨
          containsLower t.name "stretch" = true) ∧ t.completed = true
      then a + 1 else a) acc
    = acc + (l.countP (fun t =>
        decide ((t.category = "Personal" ∨ t.category = "Evening" ∨
          containsLower t.name "stretch" = true) ∧ t.completed = true)) : Int) := by
  induction l generalizing acc with
  | nil => simp
  | cons t ts ih =>
    simp only [List.foldl_cons, List.countP_cons, ih]
    by_cases h : (t.category = "Personal" ∨ t.category = "Evening" ∨
        containsLower t.name "stretch" = true) ∧ t.completed = true
    · simp [h]
      ring
    · simp [h]

/-- C2 (amended): in `_calculate_stress_resilience`, per routine,
`daily_stress` adds 2 for each Work task with duration > 120 and 1 for
each pain/relief/wrist-named task that is NOT such a long Work task (the
source's `elif` excludes double counting), and `daily_recovery` adds 1
for each completed task in category Personal/Evening or whose name
contains "stretch". -/
theorem C2_stress_recovery_counters (r : DailyRoutine) :
    dailyStress r
      = 2 * (r.tasks.countP
            (fun t => decide (t.category = "Work" ∧ 120 < t.duration)) : Int)
        + (r.tasks.countP (fun t => anyWordIn t.name ["pain", "relief", "wrist"]
            && !(decide (t.category = "Work" ∧ 120 < t.duration))) : Int)
    ∧ dailyRecovery r
      = (r.tasks.countP (fun t =>
          decide ((t.category = "Personal" ∨ t.category = "Evening" ∨
            containsLower t.name "stretch" = true) ∧ t.completed = true)) : Int) := by
  constructor
  · simpa using stressFold r.tasks 0
  · simpa using recoveryFold r.tasks 0

def c2Task : RoutineTask := ⟨"t", "pain", "", "08:00", 121, "Work", false⟩

def c2Routine : DailyRoutine := ⟨"r", "d", "2024-01-01", [c2Task], ""⟩

/-- C2 counterexample: a Work task of 121 minutes named "pain" gets
`daily_stress = 2` from the code, while the claim's additive reading
("+2 for each long Work task and +1 for any pain-keyword task") gives 3. -/
theorem C2_counterexample :
    dailyStress c2Routine = 2 ∧ claimDailyStress c2Routine = 3 ∧
      dailyStress c2Routine ≠ claimDailyStress c2Routine := by
  refine ⟨by decide, by decide, by decide⟩

/-! ### C10: circadian-type classification is total over three labels -/

/-- C10: for every non-empty peak-hour list (hours 0–23), the circadian
classification returns one of exactly "Morning Lark" (mean ≤ 10),
"Night Owl" (mean ≥ 18) or "Mid-day Peak" (10 < mean < 18); the
"Variable Pattern" fallback branch is unreachable because the three mean
ranges cover every rational mean. -/
theorem C10_circadian_three_labels (peaks : List (Int × ℚ))
    (hne : peaks ≠ []) (_ : ∀ p ∈ peaks, 0 ≤ p.1 ∧ p.1 ≤ 23) :
    (determine_circadian_type peaks = .ok "Morning Lark" ∨
     determine_circadian_type peaks = .ok "Night Owl" ∨
     determine_circadian_type peaks = .ok "Mid-day Peak") ∧
    determine_circadian_type peaks ≠ .ok "Variable Pattern" := by
  have hE : peaks.isEmpty = false := by simpa [List.isEmpty_iff] using hne
  set avg := meanQ (peaks.map fun p => (p.1 : ℚ)) with havg
  rcases le_or_lt avg 10 with h1 | h1
  · have hdet : determine_circadian_type peaks = .ok "Morning Lark" := by
      simp [determine_circadian_type, hE, ← havg, h1]
    rw [hdet]
    exact ⟨Or.inl rfl, by simp⟩
  · rcases le_or_lt 18 avg with h2 | h2
    · have hdet : determine_circadian_type peaks = .ok "Night Owl" := by
        simp [determine_circadian_type, hE, ← havg, not_le.mpr h1, h2]
      rw [hdet]
      exact ⟨Or.inr (Or.inl rfl), by simp⟩
    · have hdet : determine_circadian_type peaks = .ok "Mid-day Peak" := by
        simp [determine_circadian_type, hE, ← havg, not_le.mpr h1, not_le.mpr h2,
          h1, h2]
      rw [hdet]
      exact ⟨Or.inr (Or.inr rfl), by simp⟩

/-- C10 witness at the concrete peak list `[(9, 1)]`. -/
theorem C10_witness :
    (determine_circadian_type [((9 : Int), (1 : ℚ))] = .ok "Morning Lark" ∨
     determine_circadian_type [((9 : Int), (1 : ℚ))] = .ok "Night Owl" ∨
     determine_circadian_type [((9 : Int), (1 : ℚ))] = .ok "Mid-day Peak") ∧
    determine_circadian_type [((9 : Int), (1 : ℚ))] ≠ .ok "Variable Pattern" :=
  C10_circadian_three_labels [((9 : Int), (1 : ℚ))] (by simp)
    (by intro p hp; simp at hp; simp [hp])

/-! ### C5: workout scoring formula -/

/-- C5: for every workout, non-negative days-since-last-workout,
recently-worked muscle-group set and pain level, the workout score is the
base 0.5 times the recovery, pain, muscle-balance and duration factors,
capped at 1. -/
theorem recStep (days : Int) :
    (if days = 0 then (1/2 : ℚ) * (1/5)
     else if days = 1 then (1/2 : ℚ) * (2/5)
     else if 2 ≤ days then (1/2 : ℚ) * 1 else (1/2 : ℚ))
    = (1/2) * claimRecoveryFactor days := by
  unfold claimRecoveryFactor
  split_ifs <;> ring

theorem painStep (pain : String) (w : WorkoutPlan) (x : ℚ) :
    (if pain = "high" then
      (if w.target_muscle_groups.contains "Wrists" ∨ w.difficulty = "Beginner"
       then x * (13/10) else x * (3/10))
     else if pain = "moderate" ∧ w.difficulty = "Advanced" then x * (7/10)
     else x)
    = x * claimPainFactor pain w := by
  unfold claimPainFactor
  split_ifs <;> ring

theorem balStep (w : WorkoutPlan) (recent : List String) (x : ℚ) :
    (if ((w.target_muscle_groups.dedup).filter
          (fun g => recent.contains g)).isEmpty then x * (7/5)
     else if ((w.target_muscle_groups.dedup).filter
          (fun g => recent.contains g)).length = 1 then x * (11/10)
     else x * (4/5))
    = x * claimBalanceFactor w recent := by
  unfold claimBalanceFactor
  by_cases h1 : ((w.target_muscle_groups.dedup).filter
      (fun g => recent.contains g)).isEmpty = true
  · rw [if_pos h1, if_pos h1]
  · by_cases h2 : ((w.target_muscle_groups.dedup).filter
        (fun g => recent.contains g)).length = 1
    · rw [if_neg h1, if_pos h2, if_neg h1, if_pos h2]
    · rw [if_neg h1, if_neg h2, if_neg h1, if_neg h2]

theorem durStep (w : WorkoutPlan) (x : ℚ) :
    (if w.estimated_duration ≤ 30 then x * (6/5)
     else if 60 < w.estimated_duration then x * (9/10) else x)
    = x * claimDurationFactor w := by
  unfold claimDurationFactor
  split_ifs <;> ring

theorem C5_workout_score_formula (w : WorkoutPlan) (days : Int)
    (recent : List String) (pain : String) (_hd : 0 ≤ days) :
    score_workout_recommendation w days recent pain
      = min ((1/2) * claimRecoveryFactor days * claimPainFactor pain w
          * claimBalanceFactor w recent * claimDurationFactor w) 1 := by
  simp only [score_workout_recommendation]
  rw [durStep, balStep, painStep, recStep days]

def c5Workout : WorkoutPlan :=
  ⟨"w", "Wrist Mobility", "", [], ["Wrists"], "Beginner", 25⟩

/-- C5 witness at a concrete Beginner wrist workout, 3 days since the
last workout, no recently worked groups, pain level high. -/
theorem C5_witness :
    (0 : Int) ≤ 3 ∧
    score_workout_recommendation c5Workout 3 [] "high"
      = min ((1/2) * claimRecoveryFactor 3 * claimPainFactor "high" c5Workout
          * claimBalanceFactor c5Workout [] * claimDurationFactor c5Workout) 1 ∧
    score_workout_recommendation c5Workout 3 [] "high" = 1 := by
  refine ⟨by norm_num, C5_workout_score_formula c5Workout 3 [] "high" (by norm_num), ?_⟩
  norm_num [score_workout_recommendation, c5Workout, List.dedup]

/-! ### C7: consistency trend -/

theorem ratesLength (routines : List DailyRoutine) :
    ((sortByDate routines).map completionRate).length = routines.length := by
  simp [sortByDate, length_sortBy]

theorem consTrend_ne_insufficient (l : List ℚ) :
    consTrend l ≠ "insufficient_data" := by
  unfold consTrend
  by_cases h : 5 ≤ l.length
  · rw [if_pos h]
    dsimp only
    split_ifs <;> decide
  · rw [if_neg h]
    decide

/-- C7: the consistency measure returns trend `insufficient_data` (with
score 0) exactly for 0-2 routines; with the per-routine completion rates
taken over the date-sorted history, ≥ 5 points compare the mean of the
last 3 against the preceding window (positions last-6..-3 when ≥ 6
points, else all but the last 3) with a ±0.1 band, and 3-4 points give
`establishing`. -/
theorem C7_consistency_trend (routines : List DailyRoutine) :
    (routines.length < 3 →
      measure_consistency routines = .insufficient ∧
      consTrendOf (measure_consistency routines) = "insufficient_data" ∧
      consistencyScoreR (measure_consistency routines) = 0) ∧
    (3 ≤ routines.length →
      consTrendOf (measure_consistency routines) ≠ "insufficient_data" ∧
      (5 ≤ routines.length →
        consTrendOf (measure_consistency routines) =
          (let rates := (sortByDate routines).map completionRate
           let recentAvg := meanQ (rates.drop (rates.length - 3))
           let earlierAvg :=
             if 6 ≤ rates.length then meanQ ((rates.drop (rates.length - 6)).take 3)
             else meanQ (rates.take (rates.length - 3))
           if recentAvg > earlierAvg + 1/10 then "improving"
           else if recentAvg < earlierAvg - 1/10 then "declining"
           else "stable")) ∧
      (routines.length = 3 ∨ routines.length = 4 →
        consTrendOf (measure_consistency routines) = "establishing")) := by
  constructor
  · intro h
    refine ⟨by simp [measure_consistency, h], ?_, ?_⟩
    · simp [measure_consistency, h, consTrendOf]
    · simp [measure_consistency, h, consistencyScoreR]
  · intro h3
    have hnot : ¬ routines.length < 3 := not_lt.mpr h3
    have hm : measure_consistency routines =
        .stats (sampleVarQ ((sortByDate routines).map completionRate))
          (meanQ ((sortByDate routines).map completionRate))
          (consTrend ((sortByDate routines).map completionRate)) := by
      simp [measure_consistency, hnot]
    refine ⟨?_, ?_, ?_⟩
    · rw [hm]
      exact consTrend_ne_insufficient _
    · intro h5
      rw [hm]
      show consTrend _ = _
      unfold consTrend
      rw [if_pos (by rw [ratesLength]; exact h5)]
    · intro h34
      rw [hm]
      show consTrend _ = _
      unfold consTrend
      rw [if_neg (by rw [ratesLength]; omega)]

def c7Task (c : Bool) : RoutineTask := ⟨"t", "Task", "", "08:00", 30, "Other", c⟩

def c7Hist : List DailyRoutine :=
  [⟨"r1", "d", "2024-01-01", [c7Task true], ""⟩,
   ⟨"r2", "d", "2024-01-02", [c7Task true], ""⟩,
   ⟨"r3", "d", "2024-01-03", [c7Task true], ""⟩,
   ⟨"r4", "d", "2024-01-04", [c7Task false], ""⟩,
   ⟨"r5", "d", "2024-01-05", [c7Task false], ""⟩]

/-- C7 witness: five routines with completion rates 1,1,1,0,0 — the last
three average 1/3, the preceding window averages 1, and the trend is
`declining`. -/
theorem C7_witness :
    5 ≤ c7Hist.length ∧
    consTrendOf (measure_consistency c7Hist) = "declining" := by
  have h := (C7_consistency_trend c7Hist).2 (by norm_num [c7Hist])
  refine ⟨by norm_num [c7Hist], ?_⟩
  rw [h.2.1 (by norm_num [c7Hist])]
  have hsort : sortByDate c7Hist = c7Hist := by decide
  rw [hsort]
  norm_num [c7Hist, c7Task, completionRate, meanQ]

/-! ### C6 / C8: recommendation list invariants -/

theorem score_workout_le_one (w : WorkoutPlan) (d : Int) (mg : List String)
    (p : String) : score_workout_recommendation w d mg p ≤ 1 := by
  simp only [score_workout_recommendation]
  exact min_le_right _ _

theorem score_meal_le_one (m : Meal) (recent : List String)
    (prefs : Option NutPrefs) (tod : String) :
    score_meal_recommendation m recent prefs tod ≤ 1 := by
  simp only [score_meal_recommendation]
  exact min_le_right _ _

theorem sortBy_take_pairwise {α : Type} (key : α → ℚ) (l : List α) (n : Nat) :
    ((sortBy (fun a b => decide (key b ≤ key a)) l).take n).Pairwise
      (fun a b => key b ≤ key a) := by
  have hs := sortBy_sorted (fun a b => decide (key b ≤ key a))
    (fun a b => by
      rcases le_total (key b) (key a) with h | h
      · exact Or.inl (by simpa)
      · exact Or.inr (by simpa))
    (fun a b c hab hbc => by
      simp only [decide_eq_true_eq] at hab hbc ⊢
      exact le_trans hbc hab) l
  exact List.Pairwise.sublist (List.take_sublist n _)
    (hs.imp (fun h => of_decide_eq_true h))

/-- Everything `recommend_workouts` can return: only scores in (1/2, 1],
at most 3 items, sorted descending by score. -/
theorem recommend_workouts_spec (workouts : List WorkoutPlan)
    (routines : List DailyRoutine) (today : Int) (res : List WorkoutRec)
    (h : recommend_workouts workouts routines today = .ok res) :
    (∀ rec ∈ res, 1/2 < rec.score ∧ rec.score ≤ 1) ∧ res.length ≤ 3 ∧
      res.Pairwise (fun a b => b.score ≤ a.score) := by
  unfold recommend_workouts at h
  split at h
  · cases h
    exact ⟨by simp, by simp, by simp⟩
  · repeat' split at h
    all_goals try exact Except.noConfusion h
    all_goals (
      simp only [Except.ok.injEq] at h
      subst h
      refine ⟨?_, ?_, ?_⟩
      · intro rec hmem
        have h1 := List.mem_of_mem_take hmem
        have h2 := (mem_sortBy _ _ _).mp h1
        obtain ⟨w, -, hfw⟩ := List.mem_filterMap.mp h2
        try dsimp only at hfw
        split at hfw
        · rename_i hlt
          obtain rfl := Option.some.inj hfw
          exact ⟨hlt, score_workout_le_one _ _ _ _⟩
        · exact absurd hfw (by simp)
      · exact List.length_take_le _ _
      · exact sortBy_take_pairwise (fun r : WorkoutRec => r.score) _ 3)

/-- Everything `recommend_meals` can return: only scores in (2/5, 1], at
most 4 items, sorted descending by score. -/
theorem recommend_meals_spec (diets : List DietPlan)
    (routines : List DailyRoutine) (today hour : Int) (res : List MealRec)
    (h : recommend_meals diets routines today hour = .ok res) :
    (∀ rec ∈ res, 2/5 < rec.score ∧ rec.score ≤ 1) ∧ res.length ≤ 4 ∧
      res.Pairwise (fun a b => b.score ≤ a.score) := by
  unfold recommend_meals at h
  split at h
  · cases h
    exact ⟨by simp, by simp, by simp⟩
  · split at h
    · exact absurd h (by simp)
    · injection h with h'
      subst h'
      refine ⟨?_, ?_, ?_⟩
      · intro rec hmem
        have h1 := List.mem_of_mem_take hmem
        have h2 := (mem_sortBy _ _ _).mp h1
        obtain ⟨m, -, hfm⟩ := List.mem_filterMap.mp h2
        try dsimp only at hfm
        split at hfm
        · rename_i hlt
          obtain rfl := Option.some.inj hfm
          exact ⟨hlt, score_meal_le_one _ _ _ _⟩
        · exact absurd hfm (by simp)
      · exact List.length_take_le _ _
      · exact sortBy_take_pairwise (fun r : MealRec => r.score) _ 4

/-- C6: workout recommendations contain only workouts scoring > 0.5,
sorted by score descending, at most 3; meal recommendations contain only
meals scoring > 0.4, sorted descending, at most 4. -/
theorem C6_recommendation_lists (workouts : List WorkoutPlan)
    (diets : List DietPlan) (routines : List DailyRoutine) (today hour : Int)
    (wres : List WorkoutRec) (mres : List MealRec)
    (hw : recommend_workouts workouts routines today = .ok wres)
    (hm : recommend_meals diets routines today hour = .ok mres) :
    ((∀ rec ∈ wres, 1/2 < rec.score) ∧ wres.length ≤ 3 ∧
      wres.Pairwise (fun a b => b.score ≤ a.score)) ∧
    ((∀ rec ∈ mres, 2/5 < rec.score) ∧ mres.length ≤ 4 ∧
      mres.Pairwise (fun a b => b.score ≤ a.score)) := by
  obtain ⟨hw1, hw2, hw3⟩ := recommend_workouts_spec _ _ _ _ hw
  obtain ⟨hm1, hm2, hm3⟩ := recommend_meals_spec _ _ _ _ _ hm
  exact ⟨⟨fun rec hr => (hw1 rec hr).1, hw2, hw3⟩,
    ⟨fun rec hr => (hm1 rec hr).1, hm2, hm3⟩⟩

def c6Meal : Meal := ⟨"m", "Oatmeal Bowl", 300, 10, 40, 5, ["oats", "milk"], ""⟩

def c6Diet : DietPlan := ⟨"d", "plan", "desc", [c6Meal], 1000, 50, 100, 30⟩

def c6WorkoutRec : WorkoutRec :=
  ⟨c5Workout, 21/25,
   "Perfect because it 7 days since last workout, targets fresh muscle groups, quick and manageable duration",
   "06:30", "high"⟩

def c6MealRec : MealRec :=
  ⟨c6Meal, 117/125,
   "Great choice - includes your favorites: oats, milk, perfect calorie match, adds variety to your week",
   "Breakfast", "high"⟩

set_option maxHeartbeats 1000000 in
theorem evalWorkoutRecs :
    recommend_workouts [c5Workout] [] 100 = .ok [c6WorkoutRec] := by
  norm_num +decide [recommend_workouts, recentWorkoutsGo, lastWorkoutGo,
    analyze_muscle_group_usage, assess_pain_level, painLevelGo,
    get_completion_patterns, score_workout_recommendation,
    generate_workout_reason, suggest_workout_time, timeSuccess, argmaxFirst,
    sortBy, insertBy, c5Workout, c6WorkoutRec, List.dedup, String.intercalate,
    String.intercalate.go, List.filterMap_cons, List.filterMap_nil]

set_option maxHeartbeats 1000000 in
theorem evalMealRecs :
    recommend_meals [c6Diet] [] 100 8 = .ok [c6MealRec] := by
  norm_num +decide [recommend_meals, recentMealsGo,
    analyze_nutritional_patterns, get_current_meal_time,
    score_meal_recommendation, generate_meal_reason, recentTokens, lowerStr,
    lowerChars, alistIncr, sortBy, insertBy, c6Meal, c6Diet, c6MealRec,
    String.intercalate, String.intercalate.go, List.filterMap_cons,
    List.filterMap_nil]

/-- C6 witness: a one-workout catalog (score 0.84) and a one-meal catalog
(score 0.936) against the empty history. -/
theorem C6_witness :
    1/2 < c6WorkoutRec.score ∧ ([c6WorkoutRec] : List WorkoutRec).length ≤ 3 ∧
    2/5 < c6MealRec.score ∧ ([c6MealRec] : List MealRec).length ≤ 4 := by
  obtain ⟨⟨hw1, hw2, -⟩, hm1, hm2, -⟩ :=
    C6_recommendation_lists [c5Workout] [c6Diet] [] 100 8 [c6WorkoutRec]
      [c6MealRec] evalWorkoutRecs evalMealRecs
  exact ⟨hw1 c6WorkoutRec (by simp), hw2, hm1 c6MealRec (by simp), hm2⟩

theorem sum_sq_dev (c : ℚ) (l : List ℚ) :
    (l.map (fun x => (x - c) ^ 2)).sum
      = (l.map (fun x => x ^ 2)).sum - 2 * c * l.sum + l.length * c ^ 2 := by
  induction l with
  | nil => simp
  | cons x xs ih =>
    simp only [List.map_cons, List.sum_cons, ih, List.length_cons]
    push_cast
    ring

theorem completionRate_bounds (r : DailyRoutine) :
    0 ≤ completionRate r ∧ completionRate r ≤ 1 := by
  unfold completionRate
  split_ifs with h
  · norm_num
  · have hpos : 0 < r.tasks.length :=
      List.length_pos.mpr (by simpa [List.isEmpty_iff] using h)
    constructor
    · positivity
    · rw [div_le_one (by exact_mod_cast hpos)]
      exact_mod_cast List.countP_le_length _

theorem sampleVarQ_le_one (l : List ℚ) (hb : ∀ x ∈ l, 0 ≤ x ∧ x ≤ 1) :
    sampleVarQ l ≤ 1 := by
  unfold sampleVarQ
  split_ifs with hlen
  · have hn2 : (2 : ℚ) ≤ (l.length : ℚ) := by exact_mod_cast hlen
    have hnpos : (0 : ℚ) < (l.length : ℚ) := by linarith
    have hn1 : (0 : ℚ) < (l.length : ℚ) - 1 := by linarith
    rw [div_le_one hn1, sum_sq_dev]
    have hQ : (l.map (fun x => x ^ 2)).sum ≤ l.sum := by
      have := List.sum_le_sum (l := l) (f := fun x => x ^ 2) (g := fun x => x)
        (fun x hx => by
          show x ^ 2 ≤ x
          nlinarith [(hb x hx).1, (hb x hx).2])
      simpa using this
    have hmean : meanQ l = l.sum / (l.length : ℚ) := rfl
    rw [hmean]
    have harith : (l.map (fun x => x ^ 2)).sum
          - 2 * (l.sum / (l.length : ℚ)) * l.sum
          + (l.length : ℚ) * (l.sum / (l.length : ℚ)) ^ 2
        = (l.map (fun x => x ^ 2)).sum - l.sum ^ 2 / (l.length : ℚ) := by
      field_simp
      try ring
    rw [harith]
    have hkey : l.sum - l.sum ^ 2 / (l.length : ℚ) ≤ (l.length : ℚ) / 4 := by
      have h3 : l.sum - l.sum ^ 2 / (l.length : ℚ)
          = (l.sum * (l.length : ℚ) - l.sum ^ 2) / (l.length : ℚ) := by
        field_simp
        try ring
      rw [h3, div_le_iff₀ hnpos]
      nlinarith [sq_nonneg (l.sum - (l.length : ℚ) / 2)]
    linarith
  · norm_num

theorem consistencyScore_bounds (routines : List DailyRoutine) :
    0 ≤ consistencyScoreR (measure_consistency routines) ∧
      consistencyScoreR (measure_consistency routines) ≤ 1 := by
  unfold measure_consistency
  split_ifs with h
  · simp [consistencyScoreR]
  · simp only [consistencyScoreR]
    have hb : ∀ x ∈ (sortByDate routines).map completionRate, 0 ≤ x ∧ x ≤ 1 := by
      intro x hx
      obtain ⟨r, -, rfl⟩ := List.mem_map.mp hx
      exact completionRate_bounds r
    have hv := sampleVarQ_le_one _ hb
    constructor
    · have hs : Real.sqrt ((sampleVarQ ((sortByDate routines).map completionRate) : ℚ) : ℝ) ≤ 1 :=
        Real.sqrt_le_one.mpr (by exact_mod_cast hv)
      linarith
    · linarith [Real.sqrt_nonneg
        ((sampleVarQ ((sortByDate routines).map completionRate) : ℚ) : ℝ)]

/-- C8: the surfaced resilience score, the consistency score (0 in the
insufficient-data branch, `1 - stdev` otherwise) and the score of every
returned workout/meal recommendation all lie in [0, 1], for every input —
including meal catalogs whose overlapping-ingredient penalty drives the
raw product negative (such meals fail the > 0.4 filter and are never
returned) and histories with stress far above recovery (the resilience
formula is explicitly clamped). -/
theorem C8_scores_in_unit_interval :
    (∀ routines : List DailyRoutine,
      0 ≤ (calculate_stress_resilience routines).resilience_score ∧
      (calculate_stress_resilience routines).resilience_score ≤ 1) ∧
    (∀ routines : List DailyRoutine,
      0 ≤ consistencyScoreR (measure_consistency routines) ∧
      consistencyScoreR (measure_consistency routines) ≤ 1) ∧
    (∀ (workouts : List WorkoutPlan) (routines : List DailyRoutine)
      (today : Int) (res : List WorkoutRec) (rec : WorkoutRec),
      recommend_workouts workouts routines today = .ok res → rec ∈ res →
      0 ≤ rec.score ∧ rec.score ≤ 1) ∧
    (∀ (diets : List DietPlan) (routines : List DailyRoutine)
      (today hour : Int) (res : List MealRec) (rec : MealRec),
      recommend_meals diets routines today hour = .ok res → rec ∈ res →
      0 ≤ rec.score ∧ rec.score ≤ 1) := by
  refine ⟨?_, consistencyScore_bounds, ?_, ?_⟩
  · intro routines
    exact ⟨le_max_left 0 _, max_le (by norm_num) (min_le_left _ _)⟩
  · intro ws rs t res rec h hm
    obtain ⟨h1, -, -⟩ := recommend_workouts_spec _ _ _ _ h
    obtain ⟨ha, hb⟩ := h1 rec hm
    exact ⟨by linarith, hb⟩
  · intro ds rs t hr res rec h hm
    obtain ⟨h1, -, -⟩ := recommend_meals_spec _ _ _ _ _ h
    obtain ⟨ha, hb⟩ := h1 rec hm
    exact ⟨by linarith, hb⟩

/-- C8 witness: the empty history for the two analysis scores, and the
concrete one-workout / one-meal recommendation runs for the list parts. -/
theorem C8_witness :
    (0 ≤ (calculate_stress_resilience []).resilience_score ∧
      (calculate_stress_resilience []).resilience_score ≤ 1) ∧
    (0 ≤ consistencyScoreR (measure_consistency []) ∧
      consistencyScoreR (measure_consistency []) ≤ 1) ∧
    (0 ≤ c6WorkoutRec.score ∧ c6WorkoutRec.score ≤ 1) ∧
    (0 ≤ c6MealRec.score ∧ c6MealRec.score ≤ 1) := by
  obtain ⟨p1, p2, p3, p4⟩ := C8_scores_in_unit_interval
  exact ⟨p1 [], p2 [],
    p3 [c5Workout] [] 100 [c6WorkoutRec] c6WorkoutRec evalWorkoutRecs (by simp),
    p4 [c6Diet] [] 100 8 [c6MealRec] c6MealRec evalMealRecs (by simp)⟩

/-! ### C9: strengths list is never empty -/

theorem patRoutines_ok (rs : List DailyRoutine) :
    ∀ st, (∀ r ∈ rs, (parseDate r.date).isSome = true) →
      ∃ st', patRoutines st rs = .ok st' := by
  induction rs with
  | nil => exact fun st _ => ⟨st, rfl⟩
  | cons r rest ih =>
    intro st h
    obtain ⟨d, hd⟩ := Option.isSome_iff_exists.mp (h r (by simp))
    rw [show patRoutines st (r :: rest)
        = patRoutines (r.tasks.foldl (patTask (weekdayName d)) st) rest by
      simp [patRoutines, hd]]
    exact ih _ (fun x hx => h x (by simp [hx]))

theorem get_completion_patterns_ok (rs : List DailyRoutine)
    (h : ∀ r ∈ rs, (parseDate r.date).isSome = true) :
    ∃ p, get_completion_patterns rs = .ok p := by
  unfold get_completion_patterns
  split_ifs with he
  · exact ⟨_, rfl⟩
  · obtain ⟨st, hst⟩ := patRoutines_ok rs _ h
    rw [hst]
    exact ⟨_, rfl⟩

/-- C9: the strengths analysis never returns an empty list — any
successful run yields a non-empty list, every history with parsable
dates (including the empty history) runs successfully, and when none of
the four strength conditions fires the result is exactly the one-element
fallback list. -/
theorem C9_strengths_nonempty :
    (∀ (routines : List DailyRoutine) (l : List String),
      identify_strengths routines = .ok l → l ≠ []) ∧
    (∀ routines : List DailyRoutine,
      (∀ r ∈ routines, (parseDate r.date).isSome = true) →
      ∃ l, identify_strengths routines = .ok l ∧ l ≠ []) ∧
    (∀ (routines : List DailyRoutine) (p : CompletionPatterns) (l : List String),
      get_completion_patterns routines = .ok p →
      identify_strengths routines = .ok l →
      ¬ 4/5 < p.total_completion_rate →
      (∀ kv ∈ catSuccess p, ¬ 17/20 < kv.2) →
      consScoreAbove (measure_consistency routines) = false →
      (assess_recovery_requirements routines).need_level ≠ "adequate" →
      l = ["Building healthy habits foundation"]) := by
  have hfb : ∀ L : List String,
      (if L.isEmpty then ["Building healthy habits foundation"] else L) ≠ [] := by
    intro L
    split_ifs with h
    · simp
    · simpa [List.isEmpty_iff] using h
  have h1 : ∀ (routines : List DailyRoutine) (l : List String),
      identify_strengths routines = .ok l → l ≠ [] := by
    intro routines l h
    unfold identify_strengths at h
    split at h
    · exact Except.noConfusion h
    · simp only [Except.ok.injEq] at h
      subst h
      exact hfb _
  refine ⟨h1, ?_, ?_⟩
  · intro routines h
    obtain ⟨p, hp⟩ := get_completion_patterns_ok routines h
    have hok : ∃ l, identify_strengths routines = .ok l := by
      unfold identify_strengths
      rw [hp]
      exact ⟨_, rfl⟩
    obtain ⟨l, hl⟩ := hok
    exact ⟨l, hl, h1 routines l hl⟩
  · intro routines p l hp hstr hc1 hc2 hc3 hc4
    unfold identify_strengths at hstr
    rw [hp] at hstr
    have hs1 : (if 4/5 < p.total_completion_rate
        then ["Excellent routine adherence"] else []) = [] := if_neg hc1
    have hs2 : (catSuccess p).filterMap (fun kv =>
        if 17/20 < kv.2 then some ("Strong " ++ lowerStr kv.1 ++ " routine consistency")
        else none) = [] := by
      rw [List.filterMap_eq_nil_iff]
      intro kv hkv
      exact if_neg (hc2 kv hkv)
    have hs3 : (if consScoreAbove (measure_consistency routines)
        then ["Highly consistent daily patterns"] else []) = [] := by
      rw [hc3]
      simp
    have hs4 : (if (assess_recovery_requirements routines).need_level = "adequate"
        then ["Well-balanced activity and recovery"] else []) = [] := if_neg hc4
    simp only [hs1, hs2, hs3, hs4, List.nil_append, List.isEmpty_nil,
      if_true, Except.ok.injEq] at hstr
    exact hstr.symm

def c9Routine : DailyRoutine :=
  ⟨"r", "d", "2024-01-01",
   [⟨"t1", "Morning Run", "", "bad", 40, "Exercise", true⟩,
    ⟨"t2", "Cooldown Run", "", "bad", 10, "Exercise", false⟩], ""⟩

/-- C9 witness: a one-routine history in which none of the four strength
conditions fires (completion rate 1/2, best category 1/2, one routine so
no consistency score, recovery need "moderate"), giving exactly the
fallback list. -/
theorem C9_witness :
    identify_strengths [c9Routine] = .ok ["Building healthy habits foundation"] ∧
    (["Building healthy habits foundation"] : List String) ≠ [] := by
  have hd : parseDate "2024-01-01" = some ⟨2024, 1, 1⟩ := by decide
  have hw : weekdayName ⟨2024, 1, 1⟩ = "Monday" := by decide
  have hb : parseHour "bad" = none := by decide
  have heval : identify_strengths [c9Routine]
      = .ok ["Building healthy habits foundation"] := by
    norm_num +decide [identify_strengths, get_completion_patterns, patRoutines,
      patTask, hd, hw, hb, catSuccess, measure_consistency, consScoreAbove,
      assess_recovery_requirements, get_recovery_recommendation,
      dailyExerciseDuration, completedExerciseDuration, dailyRecoveryActs,
      alistPush, c9Routine, List.filterMap_cons, List.filterMap_nil]
  exact ⟨heval, C9_strengths_nonempty.1 [c9Routine] _ heval⟩

/-! ### C4: malformed records -/

/-- The history with unparsable-time tasks removed; the claim's "skipped
for that statistic" is the statement that the time-derived statistics of
`rs` equal those of `timeFiltered rs`. -/
def timeFiltered (rs : List DailyRoutine) : List DailyRoutine :=
  rs.map (fun r =>
    { r with tasks := r.tasks.filter (fun t => (parseHour t.time).isSome) })

def totalTaskCount (rs : List DailyRoutine) : Nat :=
  (rs.map (fun r => r.tasks.length)).sum

def completedTaskCount (rs : List DailyRoutine) : Nat :=
  (rs.map (fun r => r.tasks.countP (fun t => t.completed))).sum

theorem energyFold_filter (wd : String) (tasks : List RoutineTask) : ∀ st,
    (tasks.filter (fun t => (parseHour t.time).isSome)).foldl (energyTask wd) st
      = tasks.foldl (energyTask wd) st := by
  induction tasks with
  | nil => intro st; rfl
  | cons t ts ih =>
    intro st
    by_cases h : (parseHour t.time).isSome = true
    · simp only [List.filter_cons, h, if_true, List.foldl_cons]
      exact ih _
    · have hnone : parseHour t.time = none :=
        Option.not_isSome_iff_eq_none.mp (by simpa using h)
      have ht : energyTask wd st t = st := by simp [energyTask, hnone]
      simp only [List.filter_cons, h, if_false, List.foldl_cons, ht]
      exact ih st

theorem timeFiltered_cons (r : DailyRoutine) (rest : List DailyRoutine) :
    timeFiltered (r :: rest)
      = { r with tasks := r.tasks.filter (fun t => (parseHour t.time).isSome) }
        :: timeFiltered rest := rfl

theorem energyRoutines_filter (rs : List DailyRoutine) : ∀ st,
    energyRoutines st (timeFiltered rs) = energyRoutines st rs := by
  induction rs with
  | nil => intro st; rfl
  | cons r rest ih =>
    intro st
    rw [timeFiltered_cons]
    cases hd : parseDate r.date with
    | none => simp [energyRoutines, hd]
    | some d =>
      simp only [energyRoutines, hd]
      rw [energyFold_filter]
      exact ih _

theorem energyRoutines_ok (rs : List DailyRoutine) :
    ∀ st, (∀ r ∈ rs, (parseDate r.date).isSome = true) →
      ∃ st', energyRoutines st rs = .ok st' := by
  induction rs with
  | nil => exact fun st _ => ⟨st, rfl⟩
  | cons r rest ih =>
    intro st h
    obtain ⟨d, hd⟩ := Option.isSome_iff_exists.mp (h r (by simp))
    rw [show energyRoutines st (r :: rest)
        = energyRoutines (r.tasks.foldl (energyTask (weekdayName d)) st) rest by
      simp [energyRoutines, hd]]
    exact ih _ (fun x hx => h x (by simp [hx]))

theorem analyze_energy_ok (rs : List DailyRoutine)
    (h : ∀ r ∈ rs, (parseDate r.date).isSome = true) :
    ∃ e, analyze_energy_patterns rs = .ok e := by
  obtain ⟨st, hst⟩ := energyRoutines_ok rs ⟨[], []⟩ h
  unfold analyze_energy_patterns
  simp only [hst]
  have hh : (hourlyFromState st).length = 24 := by
    unfold hourlyFromState
    rw [List.length_map, List.length_range]
  have hlen : ((sortBy (fun a b => decide (b.2 ≤ a.2))
      (hourlyFromState st)).take 3).length = 3 := by
    rw [List.length_take, length_sortBy, hh]
    decide
  have hne : (sortBy (fun a b => decide (b.2 ≤ a.2))
      (hourlyFromState st)).take 3 ≠ [] := by
    apply List.ne_nil_of_length_pos
    rw [hlen]
    norm_num
  have hdet : determine_circadian_type ((sortBy (fun a b => decide (b.2 ≤ a.2))
        (hourlyFromState st)).take 3)
      = .ok (if meanQ ((((sortBy (fun a b => decide (b.2 ≤ a.2))
            (hourlyFromState st)).take 3).map (fun p => (p.1 : ℚ)))) ≤ 10
          then "Morning Lark"
          else if 18 ≤ meanQ ((((sortBy (fun a b => decide (b.2 ≤ a.2))
            (hourlyFromState st)).take 3).map (fun p => (p.1 : ℚ)))) then "Night Owl"
          else if 10 < meanQ ((((sortBy (fun a b => decide (b.2 ≤ a.2))
              (hourlyFromState st)).take 3).map (fun p => (p.1 : ℚ)))) ∧
            meanQ ((((sortBy (fun a b => decide (b.2 ≤ a.2))
              (hourlyFromState st)).take 3).map (fun p => (p.1 : ℚ)))) < 18
          then "Mid-day Peak" else "Variable Pattern") := by
    unfold determine_circadian_type
    rw [if_neg (by simpa [List.isEmpty_iff] using hne)]
  simp only [hdet]
  exact ⟨_, rfl⟩

theorem patTimes_filter (wd : String) (tasks : List RoutineTask) :
    ∀ st st' : PatState, st.times = st'.times →
      ((tasks.filter (fun t => (parseHour t.time).isSome)).foldl
        (patTask wd) st').times
      = (tasks.foldl (patTask wd) st).times := by
  induction tasks with
  | nil => exact fun st st' h => h.symm
  | cons t ts ih =>
    intro st st' h
    by_cases hp : (parseHour t.time).isSome = true
    · simp only [List.filter_cons, hp, if_true, List.foldl_cons]
      refine ih _ _ ?_
      obtain ⟨hh, hd⟩ := Option.isSome_iff_exists.mp hp
      simp [patTask, hd, h]
    · have hnone : parseHour t.time = none :=
        Option.not_isSome_iff_eq_none.mp (by simpa using hp)
      simp only [List.filter_cons, hp, if_false, List.foldl_cons]
      refine ih _ _ ?_
      simp [patTask, hnone, h]

theorem patRoutines_filter (rs : List DailyRoutine) :
    ∀ st st' : PatState, st.times = st'.times →
      (patRoutines st rs = .error () ∧
        patRoutines st' (timeFiltered rs) = .error ()) ∨
      (∃ o o', patRoutines st rs = .ok o ∧
        patRoutines st' (timeFiltered rs) = .ok o' ∧ o.times = o'.times) := by
  induction rs with
  | nil => exact fun st st' h => Or.inr ⟨st, st', rfl, rfl, h⟩
  | cons r rest ih =>
    intro st st' h
    rw [timeFiltered_cons]
    cases hd : parseDate r.date with
    | none =>
      refine Or.inl ⟨?_, ?_⟩
      · simp [patRoutines, hd]
      · simp [patRoutines, hd]
    | some d =>
      have hstep :
          (patRoutines st (r :: rest)
            = patRoutines (r.tasks.foldl (patTask (weekdayName d)) st) rest) ∧
          (patRoutines st'
              ({ r with tasks := r.tasks.filter (fun t => (parseHour t.time).isSome) }
                :: timeFiltered rest)
            = patRoutines ((r.tasks.filter (fun t => (parseHour t.time).isSome)).foldl
                (patTask (weekdayName d)) st') (timeFiltered rest)) := by
        constructor
        · simp [patRoutines, hd]
        · simp [patRoutines, hd]
      rw [hstep.1, hstep.2]
      exact ih _ _ (patTimes_filter (weekdayName d) r.tasks st st' h).symm

theorem patTask_totals (wd : String) (tasks : List RoutineTask) :
    ∀ st : PatState,
      (tasks.foldl (patTask wd) st).total = st.total + tasks.length ∧
      (tasks.foldl (patTask wd) st).done
        = st.done + tasks.countP (fun t => t.completed) := by
  induction tasks with
  | nil => intro st; simp
  | cons t ts ih =>
    intro st
    simp only [List.foldl_cons, List.countP_cons, List.length_cons]
    obtain ⟨h1, h2⟩ := ih (patTask wd st t)
    constructor
    · rw [h1]
      simp only [patTask]
      omega
    · rw [h2]
      by_cases hc : t.completed = true
      · simp [patTask, hc]
        omega
      · simp [patTask, hc]

theorem patRoutines_totals (rs : List DailyRoutine) :
    ∀ st out, patRoutines st rs = .ok out →
      out.total = st.total + totalTaskCount rs ∧
      out.done = st.done + completedTaskCount rs := by
  induction rs with
  | nil =>
    intro st out h
    simp only [patRoutines, Except.ok.injEq] at h
    subst h
    simp [totalTaskCount, completedTaskCount]
  | cons r rest ih =>
    intro st out h
    cases hd : parseDate r.date with
    | none => simp [patRoutines, hd] at h
    | some d =>
      simp only [patRoutines, hd] at h
      obtain ⟨ht, hdn⟩ := ih _ _ h
      obtain ⟨gt, gd⟩ := patTask_totals (weekdayName d) r.tasks st
      constructor
      · rw [ht, gt]
        simp only [totalTaskCount, List.map_cons, List.sum_cons]
        omega
      · rw [hdn, gd]
        simp only [completedTaskCount, List.map_cons, List.sum_cons]
        omega

def c4BadDate : DailyRoutine :=
  ⟨"r", "d", "not-a-date", [⟨"t", "Task", "", "08:00", 30, "Work", true⟩], ""⟩

/-- C4 counterexample: a routine whose date string does not parse makes
both pattern computations raise (propagate an error) instead of being
skipped — the `strptime` calls sit outside any `try`. -/
theorem C4_counterexample :
    get_completion_patterns [c4BadDate] = .error () ∧
    analyze_energy_patterns [c4BadDate] = .error () := by
  constructor
  · have hd : parseDate "not-a-date" = none := by decide
    simp [get_completion_patterns, patRoutines, c4BadDate, hd]
  · have hd : parseDate "not-a-date" = none := by decide
    simp [analyze_energy_patterns, energyRoutines, c4BadDate, hd]

/-- C4 (amended): an unparsable task **time** is skipped for the
time-derived statistics only — the computations still succeed for any
history whose dates parse, the `best_times` buckets and the whole energy
analysis coincide with those of the history with unparsable-time tasks
removed, and the non-time statistics (`total_completion_rate`) still
count every task.  An unparsable **date**, by contrast, aborts the whole
computation (see the counterexample). -/
theorem C4_malformed_records :
    (∀ rs : List DailyRoutine, (∀ r ∈ rs, (parseDate r.date).isSome = true) →
      (∃ p, get_completion_patterns rs = .ok p) ∧
      (∃ e, analyze_energy_patterns rs = .ok e)) ∧
    (∀ rs : List DailyRoutine,
      analyze_energy_patterns (timeFiltered rs) = analyze_energy_patterns rs) ∧
    (∀ (rs : List DailyRoutine) (p p' : CompletionPatterns),
      get_completion_patterns rs = .ok p →
      get_completion_patterns (timeFiltered rs) = .ok p' →
      p.best_times = p'.best_times) ∧
    (∀ (rs : List DailyRoutine) (p : CompletionPatterns),
      get_completion_patterns rs = .ok p →
      p.total_completion_rate =
        if 0 < totalTaskCount rs
        then (completedTaskCount rs : ℚ) / totalTaskCount rs else 0) := by
  refine ⟨?_, ?_, ?_, ?_⟩
  · intro rs h
    exact ⟨get_completion_patterns_ok rs h, analyze_energy_ok rs h⟩
  · intro rs
    unfold analyze_energy_patterns
    rw [energyRoutines_filter]
  · intro rs p p' hp hp'
    unfold get_completion_patterns at hp hp'
    have hemp : (timeFiltered rs).isEmpty = rs.isEmpty := by
      cases rs <;> rfl
    rw [hemp] at hp'
    by_cases he : rs.isEmpty = true
    · rw [if_pos he] at hp hp'
      simp only [Except.ok.injEq] at hp hp'
      subst hp
      subst hp'
      rfl
    · rw [if_neg he] at hp hp'
      rcases patRoutines_filter rs ⟨[], [], [], [], 0, 0⟩ ⟨[], [], [], [], 0, 0⟩
          rfl with ⟨h1, h2⟩ | ⟨o, o', h1, h2, h3⟩
      · rw [h1] at hp
        exact Except.noConfusion hp
      · rw [h1] at hp
        rw [h2] at hp'
        simp only [Except.ok.injEq] at hp hp'
        subst hp
        subst hp'
        simpa using h3
  · intro rs p hp
    unfold get_completion_patterns at hp
    by_cases he : rs.isEmpty = true
    · rw [if_pos he] at hp
      simp only [Except.ok.injEq] at hp
      subst hp
      have : rs = [] := by simpa [List.isEmpty_iff] using he
      subst this
      simp [totalTaskCount]
    · rw [if_neg he] at hp
      cases hpr : patRoutines ⟨[], [], [], [], 0, 0⟩ rs with
      | error e =>
        rw [hpr] at hp
        exact Except.noConfusion hp
      | ok st =>
        rw [hpr] at hp
        simp only [Except.ok.injEq] at hp
        subst hp
        obtain ⟨ht, hd⟩ := patRoutines_totals rs _ _ hpr
        simp only at ht hd
        rw [ht, hd]
        simp

def c4Mixed : DailyRoutine :=
  ⟨"r", "d", "2024-01-02",
   [⟨"t1", "Deep Work", "", "09:00", 60, "Work", true⟩,
    ⟨"t2", "Broken", "", "??", 30, "Other", false⟩], ""⟩

/-- The surfaced `total_completion_rate` of a pattern result. -/
def totalRateOf : Except Unit CompletionPatterns → ℚ
  | .ok p => p.total_completion_rate
  | .error _ => 0

/-- C4 witness at a routine with one parsable-time task and one
unparsable-time task: both analyses succeed, the energy analysis equals
that of the filtered history, and the completion rate still counts both
tasks (1 completed of 2). -/
theorem C4_witness :
    (get_completion_patterns [c4Mixed]).isOk = true ∧
    (analyze_energy_patterns [c4Mixed]).isOk = true ∧
    analyze_energy_patterns (timeFiltered [c4Mixed])
      = analyze_energy_patterns [c4Mixed] ∧
    totalRateOf (get_completion_patterns [c4Mixed]) = (1 : ℚ) / 2 := by
  have hdates : ∀ r ∈ [c4Mixed], (parseDate r.date).isSome = true := by decide
  obtain ⟨⟨p, hp⟩, ⟨e, he⟩⟩ := C4_malformed_records.1 [c4Mixed] hdates
  have hrate := C4_malformed_records.2.2.2 [c4Mixed] p hp
  refine ⟨by rw [hp]; rfl, by rw [he]; rfl,
    C4_malformed_records.2.1 [c4Mixed], ?_⟩
  rw [hp]
  show p.total_completion_rate = (1 : ℚ) / 2
  rw [hrate]
  norm_num [totalTaskCount, completedTaskCount, c4Mixed]

/-! ### C3: energy stability -/

/-- The 24 hourly means underlying the energy analysis ([] only in the
unreachable error case). -/
def hourlyValues (rs : List DailyRoutine) : List ℚ :=
  match energyRoutines ⟨[], []⟩ rs with
  | .error _ => []
  | .ok st => (hourlyFromState st).map (fun p => p.2)

theorem hourlyFromState_length (st : EnergyState) :
    (hourlyFromState st).length = 24 := by
  unfold hourlyFromState
  rw [List.length_map, List.length_range]

theorem sampleVarQ_allEqual (l : List ℚ)
    (h : ∀ x ∈ l, ∀ y ∈ l, x = y) : sampleVarQ l = 0 := by
  unfold sampleVarQ
  split_ifs with hlen
  · have hne : l ≠ [] := by
      intro hcon
      rw [hcon] at hlen
      simp at hlen
    obtain ⟨x₀, hx₀⟩ := List.exists_mem_of_ne_nil l hne
    have hall : ∀ x ∈ l, x = x₀ := fun x hx => h x hx x₀ hx₀
    have hsum : l.sum = l.length • x₀ := List.sum_eq_card_nsmul l x₀ hall
    have hmean : meanQ l = x₀ := by
      unfold meanQ
      rw [hsum, nsmul_eq_mul]
      have hl0 : (l.length : ℚ) ≠ 0 := by
        have : 0 < l.length := by omega
        exact_mod_cast Nat.pos_iff_ne_zero.mp this
      field_simp
    have hz : (l.map (fun x => (x - meanQ l) ^ 2)).sum = 0 := by
      apply List.sum_eq_zero
      intro y hy
      obtain ⟨x, hx, rfl⟩ := List.mem_map.mp hy
      rw [hmean, hall x hx]
      ring
    rw [hz, zero_div]
  · rfl

theorem energyFold_id (wd : String) (tasks : List RoutineTask)
    (h : ∀ t ∈ tasks, parseHour t.time = none) :
    ∀ st, tasks.foldl (energyTask wd) st = st := by
  induction tasks with
  | nil => intro st; rfl
  | cons t ts ih =>
    intro st
    have ht : energyTask wd st t = st := by
      simp [energyTask, h t (by simp)]
    simp only [List.foldl_cons, ht]
    exact ih (fun x hx => h x (by simp [hx])) st

theorem energyRoutines_id (rs : List DailyRoutine)
    (h : ∀ r ∈ rs, ∀ t ∈ r.tasks, parseHour t.time = none) :
    ∀ st, energyRoutines st rs = .error () ∨ energyRoutines st rs = .ok st := by
  induction rs with
  | nil => intro st; exact Or.inr rfl
  | cons r rest ih =>
    intro st
    cases hd : parseDate r.date with
    | none =>
      left
      simp [energyRoutines, hd]
    | some d =>
      have hstep : energyRoutines st (r :: rest)
          = energyRoutines (r.tasks.foldl (energyTask (weekdayName d)) st) rest := by
        simp [energyRoutines, hd]
      rw [hstep, energyFold_id (weekdayName d) r.tasks (h r (by simp))]
      exact ih (fun x hx => h x (by simp [hx])) st

theorem determine_ok_of_ne_nil (peaks : List (Int × ℚ)) (hne : peaks ≠ []) :
    ∃ ct, determine_circadian_type peaks = .ok ct := by
  unfold determine_circadian_type
  rw [if_neg (by simpa [List.isEmpty_iff] using hne)]
  exact ⟨_, rfl⟩

/-- C3 (amended): the energy analysis is built on exactly 24 hourly
values (default 0.5), and `energy_stability` is the **sample** standard
deviation (denominator n−1, `statistics.stdev`) of those 24 values; it is
always ≥ 0 and is 0 whenever all 24 values are equal, in particular for
a history whose tasks touch no hours. -/
theorem C3_energy_stability (rs : List DailyRoutine) (e : EnergyPatterns)
    (h : analyze_energy_patterns rs = .ok e) :
    (hourlyValues rs).length = 24 ∧
    e.energyVar = sampleVarQ (hourlyValues rs) ∧
    energyStabilityR e = sampleStdDevR (hourlyValues rs) ∧
    0 ≤ energyStabilityR e ∧
    ((∀ x ∈ hourlyValues rs, ∀ y ∈ hourlyValues rs, x = y) →
      energyStabilityR e = 0) ∧
    ((∀ r ∈ rs, ∀ t ∈ r.tasks, parseHour t.time = none) →
      energyStabilityR e = 0) := by
  cases hst : energyRoutines ⟨[], []⟩ rs with
  | error e' =>
    have : analyze_energy_patterns rs = .error e' := by
      unfold analyze_energy_patterns
      simp only [hst]
    rw [this] at h
    exact Except.noConfusion h
  | ok st =>
    have hne : (sortBy (fun a b => decide (b.2 ≤ a.2))
        (hourlyFromState st)).take 3 ≠ [] := by
      apply List.ne_nil_of_length_pos
      rw [List.length_take, length_sortBy, hourlyFromState_length]
      decide
    obtain ⟨ct, hdet⟩ := determine_ok_of_ne_nil _ hne
    have heval : analyze_energy_patterns rs
        = .ok ⟨((sortBy (fun a b => decide (b.2 ≤ a.2))
              (hourlyFromState st)).take 3).map (fun p => p.1),
            ((sortBy (fun a b => decide (a.2 ≤ b.2))
              (hourlyFromState st)).take 3).map (fun p => p.1),
            sampleVarQ ((hourlyFromState st).map (fun p => p.2)),
            ct, analyze_weekday_energy st.combos⟩ := by
      unfold analyze_energy_patterns
      simp only [hst, hdet]
    rw [heval] at h
    obtain rfl : e = _ := (Except.ok.inj h).symm
    have hv : hourlyValues rs = (hourlyFromState st).map (fun p => p.2) := by
      simp only [hourlyValues, hst]
    have hvar : sampleVarQ ((hourlyFromState st).map (fun p => p.2))
        = sampleVarQ (hourlyValues rs) := by rw [hv]
    refine ⟨?_, ?_, ?_, ?_, ?_, ?_⟩
    · rw [hv, List.length_map, hourlyFromState_length]
    · exact hvar
    · simp only [energyStabilityR, sampleStdDevR, hvar]
    · exact Real.sqrt_nonneg _
    · intro hall
      have h0 : sampleVarQ (hourlyValues rs) = 0 := sampleVarQ_allEqual _ hall
      simp only [energyStabilityR, hvar, h0]
      simp
    · intro hnone
      rcases energyRoutines_id rs hnone ⟨[], []⟩ with hcon | hok
      · rw [hst] at hcon
        exact Except.noConfusion hcon
      · rw [hst] at hok
        obtain rfl : st = (⟨[], []⟩ : EnergyState) := (Except.ok.inj hok)
        have hhalf : ∀ x ∈ hourlyValues rs, x = 1/2 := by
          intro x hx
          rw [hv] at hx
          obtain ⟨p, hp, rfl⟩ := List.mem_map.mp hx
          unfold hourlyFromState at hp
          obtain ⟨hh, -, rfl⟩ := List.mem_map.mp hp
          rfl
        have h0 : sampleVarQ (hourlyValues rs) = 0 :=
          sampleVarQ_allEqual _ (fun x hx y hy => by rw [hhalf x hx, hhalf y hy])
        simp only [energyStabilityR, hvar, h0]
        simp

def c3One : DailyRoutine :=
  ⟨"r", "d", "2024-01-01", [⟨"t", "Read", "", "08:00", 60, "Other", true⟩], ""⟩

/-- The surfaced `energy_stability` of an analysis result. -/
noncomputable def energyStabilityOf : Except Unit EnergyPatterns → ℝ
  | .ok e => energyStabilityR e
  | .error _ => 0

/-- C3 counterexample: one completed 60-minute task at 08:00 gives hourly
values `0.5` everywhere except `1` at hour 8; the code's stability is the
sample stdev `sqrt(1/96)` while the claim's population stdev is
`sqrt(23/2304)` — they differ. -/
theorem C3_counterexample :
    (analyze_energy_patterns [c3One]).isOk = true ∧
    energyStabilityOf (analyze_energy_patterns [c3One])
      ≠ popStdDevR (hourlyValues [c3One]) := by
  have hd : parseDate "2024-01-01" = some ⟨2024, 1, 1⟩ := by decide
  have hwd : weekdayName ⟨2024, 1, 1⟩ = "Monday" := by decide
  have hh : parseHour "08:00" = some 8 := by decide
  have hst : energyRoutines ⟨[], []⟩ [c3One]
      = .ok ⟨[((8 : Int), [1])], [("Monday_8", [1])]⟩ := by
    norm_num +decide [energyRoutines, energyTask, hd, hwd, hh, c3One, alistPush]
  have hlist : (hourlyFromState ⟨[((8 : Int), [1])], [("Monday_8", [1])]⟩).map
        (fun p => p.2)
      = [1/2, 1/2, 1/2, 1/2, 1/2, 1/2, 1/2, 1/2, 1, 1/2, 1/2, 1/2, 1/2, 1/2,
         1/2, 1/2, 1/2, 1/2, 1/2, 1/2, 1/2, 1/2, 1/2, 1/2] := by
    norm_num +decide [hourlyFromState, alistGet, meanQ, List.range_succ,
      List.range_zero]
  have hvar : sampleVarQ
      [(1:ℚ)/2, 1/2, 1/2, 1/2, 1/2, 1/2, 1/2, 1/2, 1, 1/2, 1/2, 1/2, 1/2, 1/2,
       1/2, 1/2, 1/2, 1/2, 1/2, 1/2, 1/2, 1/2, 1/2, 1/2] = 1/96 := by
    norm_num [sampleVarQ, meanQ]
  have hpop : popVarQ
      [(1:ℚ)/2, 1/2, 1/2, 1/2, 1/2, 1/2, 1/2, 1/2, 1, 1/2, 1/2, 1/2, 1/2, 1/2,
       1/2, 1/2, 1/2, 1/2, 1/2, 1/2, 1/2, 1/2, 1/2, 1/2] = 23/2304 := by
    norm_num [popVarQ, meanQ]
  have hne : (sortBy (fun a b => decide (b.2 ≤ a.2))
      (hourlyFromState ⟨[((8 : Int), [1])], [("Monday_8", [1])]⟩)).take 3 ≠ [] := by
    apply List.ne_nil_of_length_pos
    rw [List.length_take, length_sortBy, hourlyFromState_length]
    decide
  obtain ⟨ct, hdet⟩ := determine_ok_of_ne_nil _ hne
  have heval : analyze_energy_patterns [c3One]
      = .ok ⟨((sortBy (fun a b => decide (b.2 ≤ a.2))
            (hourlyFromState ⟨[((8 : Int), [1])], [("Monday_8", [1])]⟩)).take 3).map
              (fun p => p.1),
          ((sortBy (fun a b => decide (a.2 ≤ b.2))
            (hourlyFromState ⟨[((8 : Int), [1])], [("Monday_8", [1])]⟩)).take 3).map
              (fun p => p.1),
          sampleVarQ ((hourlyFromState
            ⟨[((8 : Int), [1])], [("Monday_8", [1])]⟩).map (fun p => p.2)),
          ct, analyze_weekday_energy [("Monday_8", [1])]⟩ := by
    unfold analyze_energy_patterns
    simp only [hst, hdet]
  have hv : hourlyValues [c3One]
      = (hourlyFromState ⟨[((8 : Int), [1])], [("Monday_8", [1])]⟩).map
          (fun p => p.2) := by
    simp only [hourlyValues, hst]
  constructor
  · rw [heval]
    rfl
  · rw [heval]
    simp only [energyStabilityOf, energyStabilityR]
    rw [hlist, hvar]
    unfold popStdDevR
    rw [hv, hlist, hpop]
    intro heq
    rw [show ((((1 : ℚ)/96 : ℚ)) : ℝ) = ((1 : ℝ)/96) by push_cast; ring,
      show ((((23 : ℚ)/2304 : ℚ)) : ℝ) = ((23 : ℝ)/2304) by push_cast; ring] at heq
    have h1 : (1 : ℝ)/96 = 23/2304 :=
      (Real.sqrt_inj (by norm_num) (by norm_num)).mp heq
    norm_num at h1

/-- C3 witness: the empty history — every hourly value defaults to 0.5,
there are exactly 24 of them, and the stability is 0. -/
theorem C3_witness :
    (analyze_energy_patterns ([] : List DailyRoutine)).isOk = true ∧
    (hourlyValues []).length = 24 ∧
    energyStabilityOf (analyze_energy_patterns ([] : List DailyRoutine)) = 0 := by
  obtain ⟨e, he⟩ := analyze_energy_ok [] (by simp)
  have hz := (C3_energy_stability [] e he).2.2.2.2.2 (by simp)
  have hlen := (C3_energy_stability [] e he).1
  exact ⟨by rw [he]; rfl, hlen, by rw [he]; exact hz⟩

/-! ### C1: empty-state summary and ai_confidence -/

theorem profile_isSome (rs : List DailyRoutine) (p : Option WellnessProfile)
    (hne : rs ≠ []) (h : generate_wellness_profile rs = .ok p) :
    p.isSome = true := by
  unfold generate_wellness_profile at h
  rw [if_neg (by simpa [List.isEmpty_iff] using hne)] at h
  cases he : analyze_energy_patterns rs with
  | error e => rw [he] at h; exact Except.noConfusion h
  | ok ep =>
    rw [he] at h
    cases hs : identify_strengths rs with
    | error e => simp only [hs] at h; exact Except.noConfusion h
    | ok sts =>
      simp only [hs, Except.ok.injEq] at h
      subst h
      rfl

/-- C1 counterexample: with an empty routine history the wellness profile
is falsy, so `ai_confidence` keeps its 0.5 default, and since the
"Learning" branch needs `ai_confidence < 0.5`, the empty-state
`ai_status` is "Analyzing", not "Learning" (and `ai_confidence` is 0.5,
not clamp(0/10) = 0.3). -/
theorem C1_counterexample :
    get_recommendation_summary [] [] [] 0 0
      = .ok ⟨0, 0, 0, 0, 0, 0, 0, 0, 1/2, "Analyzing", false, 0⟩ ∧
    "Analyzing" ≠ "Learning" := by
  refine ⟨?_, by decide⟩
  norm_num +decide [get_recommendation_summary, suggest_routine_optimizations,
    suggest_optimal_scheduling, recommend_workouts, recommend_meals,
    generate_proactive_interventions, generate_wellness_profile,
    get_completion_patterns, catSuccess, timeSuccess, argmaxFirst, argminFirst,
    List.filterMap_nil]

/-- C1 (amended): for the input state with empty routine history, empty
workout catalog and empty diet catalog, `generate_wellness_profile`
returns the empty profile, both recommenders return `[]`, and the
summary has total 0 with `ai_confidence` 0.5 (its default — the profile
is falsy, so the clamp formula is skipped) and `ai_status` "Analyzing";
for every non-empty history whose summary succeeds, `ai_confidence`
equals clamp(routine_count/10, 0.3, 0.95). -/
theorem C1_empty_state_summary :
    (∀ today hour : Int,
      generate_wellness_profile [] = .ok none ∧
      recommend_workouts [] [] today = .ok [] ∧
      recommend_meals [] [] today hour = .ok [] ∧
      get_recommendation_summary [] [] [] today hour
        = .ok ⟨0, 0, 0, 0, 0, 0, 0, 0, 1/2, "Analyzing", false, 0⟩) ∧
    (∀ (rs : List DailyRoutine) (ws : List WorkoutPlan) (ds : List DietPlan)
      (today hour : Int) (s : Summary),
      rs ≠ [] → get_recommendation_summary rs ws ds today hour = .ok s →
      s.ai_confidence = min (19/20) (max (3/10) ((rs.length : ℚ) / 10))) := by
  constructor
  · intro today hour
    refine ⟨rfl, rfl, rfl, ?_⟩
    norm_num +decide [get_recommendation_summary, suggest_routine_optimizations,
      suggest_optimal_scheduling, recommend_workouts, recommend_meals,
      generate_proactive_interventions, generate_wellness_profile,
      get_completion_patterns, catSuccess, timeSuccess, argmaxFirst,
      argminFirst, List.filterMap_nil]
  · intro rs ws ds today hour s hne hs
    unfold get_recommendation_summary at hs
    cases h1 : suggest_routine_optimizations rs with
    | error e => rw [h1] at hs; exact Except.noConfusion hs
    | ok rsug =>
      rw [h1] at hs
      cases h2 : recommend_workouts ws rs today with
      | error e => simp only [h2] at hs; exact Except.noConfusion hs
      | ok wrecs =>
        simp only [h2] at hs
        cases h3 : recommend_meals ds rs today hour with
        | error e => simp only [h3] at hs; exact Except.noConfusion hs
        | ok mrecs =>
          simp only [h3] at hs
          cases h4 : suggest_optimal_scheduling rs with
          | error e => simp only [h4] at hs; exact Except.noConfusion hs
          | ok ssug =>
            simp only [h4] at hs
            cases h5 : generate_proactive_interventions rs with
            | error e => simp only [h5] at hs; exact Except.noConfusion hs
            | ok ivs =>
              simp only [h5] at hs
              cases h6 : generate_wellness_profile rs with
              | error e => simp only [h6] at hs; exact Except.noConfusion hs
              | ok profile =>
                simp only [h6, Except.ok.injEq] at hs
                subst hs
                have hps := profile_isSome rs profile hne h6
                simp [hps]

def c1Routine : DailyRoutine := ⟨"r", "d", "2024-01-01", [], ""⟩

/-- C1 witness: the empty state yields the all-zero summary with
`ai_confidence` 0.5 and `ai_status` "Analyzing"; the one-routine history
`[c1Routine]` yields a summary whose `ai_confidence` is 0.3, matching
the clamp formula min(0.95, max(0.3, 1/10)). -/
theorem C1_witness :
    get_recommendation_summary [] [] [] 0 0
      = .ok ⟨0, 0, 0, 0, 0, 0, 0, 0, 1/2, "Analyzing", false, 0⟩ ∧
    get_recommendation_summary [c1Routine] [] [] 0 0
      = .ok ⟨1, 0, 0, 0, 0, 1, 0, 0, 3/10, "Learning", true, 1⟩ ∧
    Summary.ai_confidence ⟨1, 0, 0, 0, 0, 1, 0, 0, 3/10, "Learning", true, 1⟩
      = min (19/20) (max (3/10)
          ((([c1Routine] : List DailyRoutine).length : ℚ) / 10)) := by
  have hd : parseDate "2024-01-01" = some ⟨2024, 1, 1⟩ := by decide
  have hw : weekdayName ⟨2024, 1, 1⟩ = "Monday" := by decide
  have heval : get_recommendation_summary [c1Routine] [] [] 0 0
      = .ok ⟨1, 0, 0, 0, 0, 1, 0, 0, 3/10, "Learning", true, 1⟩ := by
    norm_num +decide [get_recommendation_summary, suggest_routine_optimizations,
      suggest_optimal_scheduling, recommend_workouts, recommend_meals,
      generate_proactive_interventions, generate_wellness_profile,
      get_completion_patterns, patRoutines, patTask, hd, hw,
      analyze_energy_patterns, energyRoutines, energyTask, hourlyFromState,
      alistExtend, analyze_weekday_energy, determine_circadian_type,
      calculate_stress_resilience, dailyStress, dailyRecovery,
      measure_consistency, sortByDate, completionRate, consTrend,
      assess_recovery_requirements, get_recovery_recommendation,
      dailyExerciseDuration, completedExerciseDuration, dailyRecoveryActs,
      predict_wellness_trajectory, identify_risk_factors, workDuration,
      painTaskCount, identify_strengths, catSuccess, consScoreAbove,
      timeSuccess, argmaxFirst, argminFirst, alistPush, alistIncr, alistGet,
      meanQ, sampleVarQ, getTimePeriod, c1Routine, sortBy, insertBy,
      List.range_succ, List.range_zero,
      List.filterMap_cons, List.filterMap_nil]
  exact ⟨(C1_empty_state_summary.1 0 0).2.2.2, heval,
    C1_empty_state_summary.2 [c1Routine] [] [] 0 0 _ (by decide) heval⟩
